import Mathlib

/-!
Shallow embedding of the spot repository (static electricity-price site with a
service worker, a page controller and a Cloudflare subscription registry).

The embedding covers:
* docs/sw.js — the Background Sync Worker: cached WatchState, getState and
  setState, the set-zone / set-data-origin message handlers, fetchLatest,
  handleSync and handlePushEvent;
* the Cloudflare subscription registry worker — normalizeZone, isAdmin,
  the POST /subscribe handler and the admin routes;
* docs/assets/spot-notify.js — the page controller: its normalizeZone,
  unsubscribePush and disableAlerts.

External platform pieces are parameters of the model: the WHATWG URL parser
appears as a function `String -> Option String` (the origin of a parsed URL,
none when parsing fails), SHA-256 as a function `String -> String`, and the
network as explicit response values passed to the functions that consume them.
-/

namespace Spot

/-! ## JavaScript values

JSON fields and message properties can hold values of any type; the worker
code guards everything with typeof checks, so the model keeps a small sum of
JavaScript values. -/

/-- Minimal model of a JavaScript value as seen in parsed JSON and messages. -/
inductive JsVal where
  | str (s : String)
  | num (n : Int)
  | boolean (b : Bool)
  | null
  | undef
  deriving DecidableEq, Repr

/-- Whether a JavaScript value is a string (typeof v === "string"). -/
def JsVal.isStr : JsVal → Bool
  | .str _ => true
  | _ => false

/-- A nullable string rendered back into a JavaScript value. -/
def jsOfOpt : Option String → JsVal
  | some s => .str s
  | none => .null

/-! ## Worker constants (docs/sw.js, top of file) -/

def REMOTE_DATA_ORIGIN : String := "https://spot.utilitarian.io"

/-- DEFAULT_DATA_ORIGIN: the remote origin when served from a local host,
the empty string otherwise.  The boolean parameter captures whether
self.location.hostname is one of the LOCAL_HOSTS. -/
def DEFAULT_DATA_ORIGIN (isLocal : Bool) : String :=
  if isLocal then REMOTE_DATA_ORIGIN else ""

/-- DEFAULT_ORIGIN_PRESET, computed from DEFAULT_DATA_ORIGIN exactly as in
the source: nonempty default origin maps to remote or custom, empty to local. -/
def DEFAULT_ORIGIN_PRESET (isLocal : Bool) : String :=
  if DEFAULT_DATA_ORIGIN isLocal ≠ "" then
    (if DEFAULT_DATA_ORIGIN isLocal = REMOTE_DATA_ORIGIN then "remote" else "custom")
  else "local"

/-! ## Character-level string operations

The JavaScript string operations used by the source (toUpperCase,
toLowerCase, trim, startsWith) are modelled on the character list of the
string, so that every definition evaluates inside the kernel. -/

/-- The toUpperCase operation (ASCII letters, as the zone pattern needs). -/
def strToUpper (s : String) : String := String.mk (s.data.map Char.toUpper)

/-- The toLowerCase operation (ASCII letters). -/
def strToLower (s : String) : String := String.mk (s.data.map Char.toLower)

/-- The startsWith operation. -/
def strStartsWith (s pre : String) : Bool := pre.data.isPrefixOf s.data

/-- The trim operation: strips leading and trailing whitespace. -/
def strTrim (s : String) : String :=
  String.mk (((s.data.dropWhile Char.isWhitespace).reverse.dropWhile
    Char.isWhitespace).reverse)

/-- Lexicographic comparison of character lists, as the JavaScript relational
operators compare strings. -/
def charListLt : List Char → List Char → Bool
  | _, [] => false
  | [], _ :: _ => true
  | a :: as, b :: bs =>
    if a < b then true
    else if a = b then charListLt as bs
    else false

/-- The JavaScript string comparison a < b. -/
def strLt (a b : String) : Bool := charListLt a.data b.data

/-! ## Origin sanitizing and preset resolution -/

/-- The test of the scheme regex (^https?://, case-insensitive) on a string. -/
def hasHttpScheme (s : String) : Bool :=
  strStartsWith (strToLower s) "http://" || strStartsWith (strToLower s) "https://"

/-- sanitizeOriginValue from docs/sw.js.  `urlOrigin` models the URL
constructor: it returns the origin of the parsed URL, or none when the
constructor throws. -/
def sanitizeOriginValue (urlOrigin : String → Option String) : JsVal → String
  | .str v =>
    let trimmed := strTrim v
    if trimmed = "" then ""
    else
      let candidate := if hasHttpScheme trimmed then trimmed else "https://" ++ trimmed
      match urlOrigin candidate with
      | some o => o
      | none => ""
  | _ => ""

/-- The tail of resolvePresetForOrigin: the preset derived from the origin
alone when no valid preset was requested. -/
def resolvePresetFallback (origin : String) : String :=
  if origin = "" then "local"
  else if origin = REMOTE_DATA_ORIGIN then "remote"
  else "custom"

/-- resolvePresetForOrigin from docs/sw.js.  The requested preset is a raw
JavaScript value; only a truthy member of VALID_ORIGIN_PRESETS enters the
first branch, anything else falls through to the origin-derived preset. -/
def resolvePresetForOrigin (origin : String) (requested : JsVal) : String :=
  match requested with
  | .str s =>
    if s = "local" then "local"
    else if s = "remote" then
      (if origin = REMOTE_DATA_ORIGIN then "remote"
       else if origin ≠ "" then "custom"
       else "local")
    else if s = "custom" then "custom"
    else resolvePresetFallback origin
  | _ => resolvePresetFallback origin

/-! ## WatchState, the stored blob and the state cache -/

/-- The normalized worker state as returned by getState. -/
structure WatchState where
  zone : Option String
  lastTimestamp : Option String
  origin : String
  originPreset : String
  deriving DecidableEq, Repr

/-- The raw JSON blob stored in the state cache; each field is an arbitrary
JavaScript value since the cache body is attacker- or past-version-controlled. -/
structure RawStored where
  zone : JsVal
  lastTimestamp : JsVal
  origin : JsVal
  originPreset : JsVal
  deriving DecidableEq, Repr

/-- Content of the state cache at STATE_URL on which getState returns
normally: no match, a body that fails to parse as JSON, or a body parsed
to a JSON object.  A body parsed to JSON null, on which the real getState
throws reading stored.zone, is outside this type; CacheBody further down
adds that case for the claim about getState totality. -/
inductive CacheContent where
  | empty
  | malformed
  | stored (r : RawStored)
  deriving DecidableEq, Repr

/-- The all-default base state built at the top of getState. -/
def baseState (isLocal : Bool) : WatchState :=
  { zone := none
    lastTimestamp := none
    origin := DEFAULT_DATA_ORIGIN isLocal
    originPreset := DEFAULT_ORIGIN_PRESET isLocal }

/-- getState from docs/sw.js: total on every cache content; missing or
unparseable records yield the base state, and each field of a parsed record
is coerced through its typeof guard. -/
def getState (urlOrigin : String → Option String) (isLocal : Bool) :
    CacheContent → WatchState
  | .empty => baseState isLocal
  | .malformed => baseState isLocal
  | .stored stored =>
    let zone : Option String :=
      match stored.zone with
      | .str s => if s ≠ "" then some s else none
      | _ => none
    let lastTimestamp : Option String :=
      match stored.lastTimestamp with
      | .str s => some s
      | _ => none
    let rawOrigin : String :=
      match stored.origin with
      | .str s => s
      | _ => DEFAULT_DATA_ORIGIN isLocal
    let origin : String :=
      if rawOrigin = "" then ""
      else
        let sanitized := sanitizeOriginValue urlOrigin (.str rawOrigin)
        if sanitized ≠ "" then sanitized else DEFAULT_DATA_ORIGIN isLocal
    let preset := resolvePresetForOrigin origin
      (match stored.originPreset with
       | .str s => .str s
       | _ => .null)
    { zone := zone, lastTimestamp := lastTimestamp, origin := origin, originPreset := preset }

/-- A partial state update handed to setState; none models an absent
property (the hasOwnProperty guard), some v a present property of value v. -/
structure StatePatch where
  zone : Option JsVal := none
  lastTimestamp : Option JsVal := none
  origin : Option JsVal := none
  originPreset : Option JsVal := none
  deriving DecidableEq, Repr

/-- The origin merge at the top of setState: an incoming string is kept
empty, sanitized, or replaced by the current origin when sanitizing fails;
an incoming null clears the origin; an absent or wrongly typed property
keeps the current origin. -/
def mergeOrigin (urlOrigin : String → Option String) (currentOrigin : String) :
    Option JsVal → String
  | some (.str s) =>
    if s = "" then ""
    else
      let sanitized := sanitizeOriginValue urlOrigin (.str s)
      if sanitized ≠ "" then sanitized else currentOrigin
  | some .null => ""
  | some _ => currentOrigin
  | none => currentOrigin

/-- The preset resolution of setState: resolve once, force the origin for
the local and remote presets, then resolve again against the forced origin.
Returns the final origin and preset. -/
def resolvePair (origin : String) (presetInput : JsVal) : String × String :=
  let resolved1 := resolvePresetForOrigin origin presetInput
  let origin2 :=
    if resolved1 = "local" then ""
    else if resolved1 = "remote" then REMOTE_DATA_ORIGIN
    else origin
  (origin2, resolvePresetForOrigin origin2 (.str resolved1))

/-- setState from docs/sw.js: merges the patch over the current state,
sanitizes the origin, resolves the preset (forcing the origin for the local
and remote presets, then re-resolving) and returns the blob written back. -/
def setState (urlOrigin : String → Option String) (isLocal : Bool)
    (cc : CacheContent) (patch : StatePatch) : RawStored :=
  let current := getState urlOrigin isLocal cc
  let originValue : String := mergeOrigin urlOrigin current.origin patch.origin
  let presetInput : JsVal :=
    match patch.originPreset with
    | some v => v
    | none => .str current.originPreset
  let pair := resolvePair originValue presetInput
  { zone :=
      match patch.zone with
      | some v =>
        (match v with
         | .str s => if s ≠ "" then .str s else .null
         | _ => .null)
      | none => jsOfOpt current.zone
    lastTimestamp :=
      match patch.lastTimestamp with
      | some v =>
        (match v with
         | .str s => .str s
         | _ => .null)
      | none => jsOfOpt current.lastTimestamp
    origin := .str pair.1
    originPreset := .str pair.2 }

/-! ## Worker message handlers -/

/-- Data carried by a set-zone message. -/
structure SetZoneMsg where
  zone : JsVal := .undef
  lastTimestamp : JsVal := .undef
  deriving DecidableEq, Repr

/-- The set-zone branch of the worker message listener: computes the new
zone, keeps the stored timestamp only when the zone is unchanged and no
fresh timestamp was supplied, and writes the merged state. -/
def handleSetZone (urlOrigin : String → Option String) (isLocal : Bool)
    (data : SetZoneMsg) (cc : CacheContent) : CacheContent :=
  let current := getState urlOrigin isLocal cc
  let zone : Option String :=
    match data.zone with
    | .str s => if s ≠ "" then some s else none
    | _ => none
  let newLast : Option String :=
    match data.lastTimestamp with
    | .str s => some s
    | _ =>
      match zone with
      | some z => if current.zone = some z then current.lastTimestamp else none
      | none => none
  CacheContent.stored (setState urlOrigin isLocal cc
    { zone := some (jsOfOpt zone)
      lastTimestamp := some (jsOfOpt newLast)
      origin := some (.str current.origin)
      originPreset := some (.str current.originPreset) })

/-- Data carried by a set-data-origin message. -/
structure SetDataOriginMsg where
  origin : JsVal := .undef
  preset : JsVal := .undef
  deriving DecidableEq, Repr

/-- The set-data-origin branch of the worker message listener. -/
def handleSetDataOrigin (urlOrigin : String → Option String) (isLocal : Bool)
    (data : SetDataOriginMsg) (cc : CacheContent) : CacheContent :=
  let current := getState urlOrigin isLocal cc
  let originInput : String :=
    match data.origin with
    | .str s => s
    | _ => current.origin
  let presetInput : String :=
    match data.preset with
    | .str s => s
    | _ => current.originPreset
  CacheContent.stored (setState urlOrigin isLocal cc
    { zone := some (jsOfOpt current.zone)
      lastTimestamp := some (jsOfOpt current.lastTimestamp)
      origin := some (.str originInput)
      originPreset := some (.str presetInput) })

/-! ## fetchLatest and the poll cycle -/

/-- One element of the JSON array returned by the price endpoint:
none is a falsy entry, some none an entry whose timestamp field is not a
string, some (some s) an entry with string timestamp s. -/
abbrev PriceEntry := Option (Option String)

/-- The truthy string timestamp of an entry (entry && entry.timestamp,
then the truthiness test on the timestamp). -/
def entryTs : PriceEntry → Option String
  | some (some s) => if s ≠ "" then some s else none
  | _ => none

/-- A response from the price endpoint: its ok flag, and its body parsed as
a JSON array (none when response.json() or the iteration over it throws). -/
structure FetchResponse where
  ok : Bool
  body : Option (List PriceEntry)
  deriving DecidableEq, Repr

/-- The accumulation step of the fetchLatest loop. -/
def latestStep (latest : Option String) (e : PriceEntry) : Option String :=
  match entryTs e with
  | some ts =>
    (match latest with
     | none => some ts
     | some l => if strLt l ts then some ts else some l)
  | none => latest

/-- The loop of fetchLatest: the running lexicographic maximum of the truthy
timestamps of the entries. -/
def latestOf (entries : List PriceEntry) : Option String :=
  entries.foldl latestStep none

/-- fetchLatest from docs/sw.js: throws (error) on a non-ok status or a body
that is not a JSON array, otherwise returns the maximum timestamp. -/
def fetchLatest (resp : FetchResponse) : Except String (Option String) :=
  if !resp.ok then .error "Failed to fetch latest"
  else
    match resp.body with
    | none => .error "malformed body"
    | some data => .ok (latestOf data)

/-- Observable outcome of one handleSync run. -/
structure SyncResult where
  cache : CacheContent
  announced : Bool
  stateUpdated : Bool
  deriving DecidableEq, Repr

/-- handleSync from docs/sw.js (the fallback poll): returns unchanged when
no zone is watched, when the fetch throws (the try/catch) or when no fresh
timestamp arrived; persists without announcing when no previous timestamp
existed; persists and announces when the fetched timestamp is strictly
greater than the previous one. -/
def handleSync (urlOrigin : String → Option String) (isLocal : Bool)
    (resp : FetchResponse) (cc : CacheContent) : SyncResult :=
  let state := getState urlOrigin isLocal cc
  match state.zone with
  | none => ⟨cc, false, false⟩
  | some z =>
    match fetchLatest resp with
    | .error _ => ⟨cc, false, false⟩
    | .ok none => ⟨cc, false, false⟩
    | .ok (some latest) =>
      if latest = "" then ⟨cc, false, false⟩
      else
        let prev : Option String :=
          match state.lastTimestamp with
          | some s => if s ≠ "" then some s else none
          | none => none
        match prev with
        | none =>
          ⟨CacheContent.stored (setState urlOrigin isLocal cc
              { zone := some (.str z), lastTimestamp := some (.str latest) }),
            false, true⟩
        | some p =>
          if strLt p latest then
            ⟨CacheContent.stored (setState urlOrigin isLocal cc
                { zone := some (.str z), lastTimestamp := some (.str latest) }),
              true, true⟩
          else ⟨cc, false, false⟩

/-! ## handlePushEvent -/

/-- The zone and timestamp fields of a parsed push payload. -/
structure PushPayload where
  zone : JsVal := .undef
  timestamp : JsVal := .undef
  deriving DecidableEq, Repr

/-- Observable outcome of handlePushEvent. -/
structure PushResult where
  cache : CacheContent
  persisted : Bool
  notificationShown : Bool
  badgeSet : Bool
  newPricesRelayed : Bool
  deriving DecidableEq, Repr

/-- handlePushEvent from docs/sw.js: always shows the notification, sets the
badge and relays new-prices; persists the payload timestamp, without any
staleness comparison, exactly when the payload carries a truthy zone and
timestamp and the uppercased zone equals the currently stored one. -/
def handlePushEvent (urlOrigin : String → Option String) (isLocal : Bool)
    (payload : PushPayload) (cc : CacheContent) : PushResult :=
  let zone : Option String :=
    match payload.zone with
    | .str s => some (strToUpper s)
    | _ => none
  let timestamp : Option String :=
    match payload.timestamp with
    | .str s => some s
    | _ => none
  match zone, timestamp with
  | some z, some t =>
    if z = "" ∨ t = "" then ⟨cc, false, true, true, true⟩
    else
      let state := getState urlOrigin isLocal cc
      if state.zone = some z then
        ⟨CacheContent.stored (setState urlOrigin isLocal cc
            { zone := some (.str z), lastTimestamp := some (.str t) }),
          true, true, true, true⟩
      else ⟨cc, false, true, true, true⟩
  | _, _ => ⟨cc, false, true, true, true⟩

/-! ## The subscription registry (Cloudflare worker) -/

/-- A character allowed by the zone pattern [A-Z0-9_-]. -/
def zoneCharOk (c : Char) : Bool :=
  (charUpperAlpha c) || (charDigit c) || c = '_' || c = '-'
where
  charUpperAlpha (c : Char) : Bool := 'A' ≤ c && c ≤ 'Z'
  charDigit (c : Char) : Bool := '0' ≤ c && c ≤ '9'

/-- The test of ^[A-Z0-9_-]{lo,hi}$ on a string. -/
def zonePatternOk (s : String) (lo hi : Nat) : Bool :=
  lo ≤ s.data.length && s.data.length ≤ hi && s.data.all zoneCharOk

/-- normalizeZone of the registry worker: rejects falsy and non-string
values, uppercases, and accepts exactly ^[A-Z0-9_-]{2,32}$. -/
def normalizeZone : JsVal → Option String
  | .str s =>
    if s = "" then none
    else
      let upper := strToUpper s
      if zonePatternOk upper 2 32 then some upper else none
  | _ => none

/-- normalizeZone of the page controller (docs/assets/spot-notify.js):
identical except that its pattern is ^[A-Z0-9_-]{2,12}$. -/
def pageNormalizeZone : JsVal → Option String
  | .str s =>
    if s = "" then none
    else
      let upper := strToUpper s
      if zonePatternOk upper 2 12 then some upper else none
  | _ => none

/-- The zones of Italy in the COUNTRIES table of the page controller. -/
def pageItalyZones : List String :=
  ["IT-NORTH", "IT-CENTRE_NORTH", "IT-CENTRE_SOUTH", "IT-SOUTH",
   "IT-SICILY", "IT-SARDINIA", "IT-CALABRIA"]

/-- A key of the subscriptions KV namespace.  Zones and ids never contain a
colon, so the prefixed string keys of the source are in bijection with this
structured form. -/
inductive KKey where
  | sub (zone id : String)
  | map (id : String)
  | ts (zone : String)
  deriving DecidableEq, Repr

/-- A Web Push subscription accepted by validSub: an endpoint and both keys,
all strings. -/
structure Subscription where
  endpoint : String
  p256dh : String
  auth : String
  deriving DecidableEq, Repr

/-- A value in the KV namespace: a serialized subscription or a plain string
(zone of the reverse map, timestamp). -/
inductive KVal where
  | subVal (s : Subscription)
  | strVal (s : String)
  deriving DecidableEq, Repr

/-- The KV namespace as a partial map. -/
def KV : Type := KKey → Option KVal

def kvPut (kv : KV) (k : KKey) (v : KVal) : KV :=
  fun k2 => if k2 = k then some v else kv k2

def kvDelete (kv : KV) (k : KKey) : KV :=
  fun k2 => if k2 = k then none else kv k2

/-- validSub of the registry worker; a payload whose subscription field is
missing or has wrongly typed fields is modelled as none. -/
def validSub : Option Subscription → Bool := Option.isSome

/-- The parsed body of a POST /subscribe request. -/
structure SubscribeBody where
  subscription : Option Subscription
  zone : JsVal
  deriving Repr

/-- Outcome of the POST /subscribe handler. -/
structure SubscribeResult where
  status : Nat
  result : Option (String × String)
  store : KV

/-- The POST /subscribe handler of the registry worker.  `hash` models
sha256 over the endpoint.  On valid input it deletes the old zone-keyed
record when the reverse map points at a different zone, writes the
zone-keyed record and the reverse map, and answers 201 with id and zone. -/
def subscribeHandler (hash : String → String) (kv : KV)
    (body : Option SubscribeBody) : SubscribeResult :=
  match body with
  | none => ⟨400, none, kv⟩
  | some b =>
    match b.subscription, normalizeZone b.zone with
    | some sub, some zone =>
      let id := hash sub.endpoint
      let kv1 :=
        match kv (.map id) with
        | some (.strVal oldZone) =>
          if oldZone ≠ "" ∧ oldZone ≠ zone then kvDelete kv (.sub oldZone id) else kv
        | _ => kv
      let kv2 := kvPut kv1 (.sub zone id) (.subVal sub)
      let kv3 := kvPut kv2 (.map id) (.strVal zone)
      ⟨201, some (id, zone), kv3⟩
    | _, _ => ⟨400, none, kv⟩

/-! ## Admin authentication and the admin routes -/

/-- isAdmin of the registry worker: false when ADMIN_SECRET is unset or
empty, otherwise the Authorization header must equal Bearer plus the secret
(a missing header counts as the empty string). -/
def isAdmin (adminSecret : Option String) (authHeader : Option String) : Bool :=
  let provided := authHeader.getD ""
  match adminSecret with
  | none => false
  | some token =>
    if token = "" then false
    else provided = "Bearer " ++ token

/-- The GET /admin/subs route: 401 unless admin, 400 on an invalid zone
query parameter, otherwise 200 with the listed subscriptions. -/
def adminSubsRoute (adminSecret : Option String) (authHeader : Option String)
    (zoneParam : JsVal) : Nat :=
  if !isAdmin adminSecret authHeader then 401
  else
    match normalizeZone zoneParam with
    | none => 400
    | some _ => 200

/-- The /admin/ts/:zone routes: 401 unless admin, 400 on an invalid zone
segment; GET answers 200, PUT validates the timestamp in the body (400 when
falsy or not a string) and answers 200, any other method falls through to
the 404 of the router. -/
def adminTsRoute (adminSecret : Option String) (authHeader : Option String)
    (method : String) (zoneSeg : JsVal) (bodyTimestamp : JsVal) : Nat :=
  if !isAdmin adminSecret authHeader then 401
  else
    match normalizeZone zoneSeg with
    | none => 400
    | some _ =>
      if method = "GET" then 200
      else if method = "PUT" then
        (match bodyTimestamp with
         | .str s => if s = "" then 400 else 200
         | _ => 400)
      else 404

/-! ## The page controller: unsubscribePush and disableAlerts -/

/-- A message posted from the page to the worker via postToWorker. -/
inductive WorkerMsg where
  | setZone (zone : Option String) (lastTimestamp : Option String)
  | clearBadge
  | requestState
  | triggerPoll
  deriving DecidableEq, Repr

/-- An observable action of the page controller. -/
inductive PageEvent where
  | workerMsg (m : WorkerMsg)
  | registryDeleteCall (idHash : String)
  | registryDeleteFailLogged
  | pushUnsubscribeCall
  | unsubscribeFailLogged
  | navClearBadge
  deriving DecidableEq, Repr

/-- Whether an event is a set-zone message to the worker. -/
def PageEvent.isSetZoneMsg : PageEvent → Bool
  | .workerMsg (.setZone _ _) => true
  | _ => false

/-- The browser environment the page controller runs against. -/
structure PageEnv where
  swOk : Bool
  hasSubscription : Bool
  endpointHashOk : Bool
  endpointHash : String
  registryDeleteOk : Bool
  unsubscribeOk : Bool
  hasNavClearBadge : Bool
  deriving DecidableEq, Repr

/-- unsubscribePush from docs/assets/spot-notify.js: throws only when the
service worker registration fails; with no local subscription it just resets
the local flags; otherwise the registry delete (attempted only when the hash
is available) and the push unsubscribe are each wrapped in try/catch that
logs and continues. -/
def unsubscribePush (env : PageEnv) : Except (List PageEvent) (List PageEvent) :=
  if !env.swOk then .error []
  else if !env.hasSubscription then .ok []
  else
    let deleteEvents :=
      if env.endpointHashOk then
        [PageEvent.registryDeleteCall env.endpointHash]
          ++ (if env.registryDeleteOk then [] else [PageEvent.registryDeleteFailLogged])
      else []
    let unsubEvents :=
      [PageEvent.pushUnsubscribeCall]
        ++ (if env.unsubscribeOk then [] else [PageEvent.unsubscribeFailLogged])
    .ok (deleteEvents ++ unsubEvents)

/-- Observable outcome of disableAlerts. -/
structure DisableResult where
  events : List PageEvent
  threw : Bool
  statusText : String
  finalSubscribed : Bool
  deriving DecidableEq, Repr

/-- disableAlerts from docs/assets/spot-notify.js: runs unsubscribePush
inside try/catch, posts a clear-badge message to the worker when it did not
throw, clears the navigator badge when supported, and always ends with the
toggle off and subscribed false; it never rethrows. -/
def disableAlerts (env : PageEnv) : DisableResult :=
  match unsubscribePush env with
  | .ok evs =>
    ⟨evs ++ [PageEvent.workerMsg .clearBadge]
        ++ (if env.hasNavClearBadge then [PageEvent.navClearBadge] else []),
      false, "Notifications disabled.", false⟩
  | .error evs =>
    ⟨evs, false, "Failed to disable notifications completely.", false⟩

/-! ## Order lemmas for the string comparison -/

theorem charListLt_irrefl (l : List Char) : charListLt l l = false := by
  induction l with
  | nil => rfl
  | cons a as ih => simp [charListLt, ih]

theorem charListLt_trans {a b c : List Char} (hab : charListLt a b = true)
    (hbc : charListLt b c = true) : charListLt a c = true := by
  induction a generalizing b c with
  | nil =>
    cases c with
    | nil => cases b <;> simp [charListLt] at hab hbc
    | cons z zs => simp [charListLt]
  | cons x xs ih =>
    cases b with
    | nil => simp [charListLt] at hab
    | cons y ys =>
      cases c with
      | nil => simp [charListLt] at hbc
      | cons z zs =>
        simp only [charListLt] at hab hbc ⊢
        by_cases hxy : x < y
        · by_cases hyz : y < z
          · simp [lt_trans hxy hyz]
          · simp [hyz] at hbc
            rcases hbc with ⟨hyz2, _⟩
            simp [hyz2 ▸ hxy]
        · simp [hxy] at hab
          rcases hab with ⟨hxy2, htail⟩
          subst hxy2
          by_cases hyz : x < z
          · simp [hyz]
          · simp [hyz] at hbc ⊢
            rcases hbc with ⟨hz, htail2⟩
            exact ⟨hz, ih htail htail2⟩

theorem charListLt_connex {a b : List Char} (hab : charListLt a b = false)
    (hba : charListLt b a = false) : a = b := by
  induction a generalizing b with
  | nil =>
    cases b with
    | nil => rfl
    | cons y ys => simp [charListLt] at hab
  | cons x xs ih =>
    cases b with
    | nil => simp [charListLt] at hba
    | cons y ys =>
      simp only [charListLt] at hab hba
      by_cases hxy : x < y
      · simp [hxy] at hab
      · by_cases hyx : y < x
        · simp [hyx] at hba
        · have hxyeq : x = y := le_antisymm (not_lt.mp hyx) (not_lt.mp hxy)
          subst hxyeq
          simp [lt_irrefl] at hab hba
          rw [ih hab hba]

theorem strLt_irrefl (s : String) : strLt s s = false := charListLt_irrefl s.data

theorem strLt_asymm {a b : String} (h : strLt a b = true) : strLt b a = false := by
  by_contra hc
  have hba : strLt b a = true := by
    cases hx : strLt b a
    · exact absurd hx hc
    · rfl
  have := charListLt_trans h hba
  rw [charListLt_irrefl] at this
  cases this

theorem strLt_connex {a b : String} (hab : strLt a b = false)
    (hba : strLt b a = false) : a = b := by
  have hd : a.data = b.data := charListLt_connex hab hba
  cases a; cases b; exact congrArg String.mk hd

theorem strLt_le_trans {a b m : String} (hba : strLt b a = false)
    (hmb : strLt m b = false) : strLt m a = false := by
  cases h : strLt m a
  · rfl
  · exfalso
    by_cases hab : a = b
    · subst hab; rw [h] at hmb; cases hmb
    · have hab2 : charListLt a.data b.data = true := by
        cases hx : charListLt a.data b.data
        · exact absurd (strLt_connex (a := a) (b := b) hx hba) hab
        · rfl
      have hmb2 : charListLt m.data b.data = true := charListLt_trans h hab2
      rw [show strLt m b = charListLt m.data b.data from rfl, hmb2] at hmb
      cases hmb

/-! ## Small structural lemmas about getState and setState -/

theorem getState_stored_zone (u : String → Option String) (il : Bool) (r : RawStored) :
    (getState u il (.stored r)).zone =
      (match r.zone with
       | .str s => if s ≠ "" then some s else none
       | _ => none) := rfl

theorem getState_stored_last (u : String → Option String) (il : Bool) (r : RawStored) :
    (getState u il (.stored r)).lastTimestamp =
      (match r.lastTimestamp with
       | .str s => some s
       | _ => none) := rfl

theorem getState_zone_ne_empty {u : String → Option String} {il : Bool}
    {cc : CacheContent} {z : String} (h : (getState u il cc).zone = some z) :
    z ≠ "" := by
  cases cc with
  | empty => simp [getState, baseState] at h
  | malformed => simp [getState, baseState] at h
  | stored r =>
    rw [getState_stored_zone] at h
    cases hz : r.zone <;> rw [hz] at h <;> try simp at h
    case str s =>
      by_cases hs : s = "" <;> simp [hs] at h
      subst h; exact hs

theorem setState_zone_str (u : String → Option String) (il : Bool)
    (cc : CacheContent) (patch : StatePatch) (z : String)
    (hp : patch.zone = some (.str z)) (hz : z ≠ "") :
    (setState u il cc patch).zone = .str z := by
  simp [setState, hp, hz]

theorem setState_last_str (u : String → Option String) (il : Bool)
    (cc : CacheContent) (patch : StatePatch) (t : String)
    (hp : patch.lastTimestamp = some (.str t)) :
    (setState u il cc patch).lastTimestamp = .str t := by
  simp [setState, hp]

theorem setState_last_opt (u : String → Option String) (il : Bool)
    (cc : CacheContent) (patch : StatePatch) (t : Option String)
    (hp : patch.lastTimestamp = some (jsOfOpt t)) :
    (setState u il cc patch).lastTimestamp = jsOfOpt t := by
  cases t <;> simp [setState, hp, jsOfOpt]

theorem sync_roundtrip (u : String → Option String) (il : Bool)
    (cc : CacheContent) (z t : String) (hz : z ≠ "") :
    (getState u il (.stored (setState u il cc
        { zone := some (.str z), lastTimestamp := some (.str t) }))).zone = some z
    ∧ (getState u il (.stored (setState u il cc
        { zone := some (.str z), lastTimestamp := some (.str t) }))).lastTimestamp = some t := by
  constructor
  · rw [getState_stored_zone, setState_zone_str u il cc _ z rfl hz]
    simp [hz]
  · rw [getState_stored_last, setState_last_str u il cc _ t rfl]

/-! ## The maximum computed by the fetchLatest loop -/

theorem entryTs_ne_empty {e : PriceEntry} {t : String} (h : entryTs e = some t) :
    t ≠ "" := by
  cases e with
  | none => simp [entryTs] at h
  | some o =>
    cases o with
    | none => simp [entryTs] at h
    | some s =>
      by_cases hs : s = "" <;> simp [entryTs, hs] at h
      subst h; exact hs

theorem latestStep_spec (acc : Option String) (e : PriceEntry) (a : String)
    (ha : latestStep acc e = some a) :
    (acc = some a ∨ entryTs e = some a)
    ∧ (∀ b, acc = some b → strLt a b = false)
    ∧ (∀ t, entryTs e = some t → strLt a t = false) := by
  unfold latestStep at ha
  cases hts : entryTs e with
  | none =>
    rw [hts] at ha
    have ha2 : acc = some a := by simpa using ha
    exact ⟨Or.inl ha2, fun b hb => (by rw [ha2] at hb; cases hb; exact strLt_irrefl a),
      fun t ht => by cases ht⟩
  | some ts =>
    rw [hts] at ha
    cases acc with
    | none =>
      have ha2 : ts = a := by simpa using ha
      subst ha2
      exact ⟨Or.inr rfl, fun b hb => (by cases hb),
        fun t ht => by cases ht; exact strLt_irrefl ts⟩
    | some l0 =>
      by_cases hlt : strLt l0 ts = true
      · have ha2 : ts = a := by simpa [hlt] using ha
        subst ha2
        exact ⟨Or.inr rfl, fun b hb => (by cases hb; exact strLt_asymm hlt),
          fun t ht => by cases ht; exact strLt_irrefl ts⟩
      · have hlt2 : strLt l0 ts = false := by
          cases hx : strLt l0 ts
          · rfl
          · exact absurd hx hlt
        have ha2 : l0 = a := by simpa [hlt] using ha
        subst ha2
        exact ⟨Or.inl rfl, fun b hb => (by cases hb; exact strLt_irrefl l0),
          fun t ht => by cases ht; exact hlt2⟩

theorem latestStep_none (acc : Option String) (e : PriceEntry)
    (h : latestStep acc e = none) : entryTs e = none ∧ acc = none := by
  unfold latestStep at h
  cases hts : entryTs e with
  | none => rw [hts] at h; exact ⟨rfl, by simpa using h⟩
  | some ts =>
    exfalso
    rw [hts] at h
    cases acc with
    | none => simp at h
    | some l0 => by_cases hlt : strLt l0 ts = true <;> simp [hlt] at h

theorem latestOf_go (l : List PriceEntry) (acc : Option String) :
    ∀ m, l.foldl latestStep acc = some m →
      (acc = some m ∨ ∃ e ∈ l, entryTs e = some m)
      ∧ (∀ a, acc = some a → strLt m a = false)
      ∧ (∀ e ∈ l, ∀ t, entryTs e = some t → strLt m t = false) := by
  induction l generalizing acc with
  | nil =>
    intro m h
    simp at h
    subst h
    exact ⟨Or.inl rfl, fun a ha => by cases ha; exact strLt_irrefl m, by simp⟩
  | cons e es ih =>
    intro m h
    rw [List.foldl_cons] at h
    obtain ⟨hsrc, hacc, hall⟩ := ih (latestStep acc e) m h
    refine ⟨?_, ?_, ?_⟩
    · rcases hsrc with hs | ⟨e2, he2, hts2⟩
      · rcases (latestStep_spec acc e m hs).1 with h1 | h1
        · exact Or.inl h1
        · exact Or.inr ⟨e, List.mem_cons_self e es, h1⟩
      · exact Or.inr ⟨e2, List.mem_cons_of_mem e he2, hts2⟩
    · intro a ha
      cases hstacc : latestStep acc e with
      | none =>
        obtain ⟨_, hac⟩ := latestStep_none acc e hstacc
        rw [hac] at ha; cases ha
      | some a2 =>
        exact strLt_le_trans ((latestStep_spec acc e a2 hstacc).2.1 a ha) (hacc a2 hstacc)
    · intro e2 he2 t ht
      rcases List.mem_cons.mp he2 with he | he
      · subst he
        cases hstacc : latestStep acc e2 with
        | none =>
          obtain ⟨hten, _⟩ := latestStep_none acc e2 hstacc
          rw [hten] at ht; cases ht
        | some a2 =>
          exact strLt_le_trans ((latestStep_spec acc e2 a2 hstacc).2.2 t ht) (hacc a2 hstacc)
      · exact hall e2 he t ht

theorem latestOf_spec (data : List PriceEntry) (m : String)
    (h : latestOf data = some m) :
    m ≠ "" ∧ (∃ e ∈ data, entryTs e = some m)
    ∧ (∀ e ∈ data, ∀ t, entryTs e = some t → strLt m t = false) := by
  obtain ⟨hsrc, _, hall⟩ := latestOf_go data none m h
  rcases hsrc with hx | hx
  · cases hx
  · obtain ⟨e, he, hts⟩ := hx
    exact ⟨entryTs_ne_empty hts, ⟨e, he, hts⟩, hall⟩

theorem fetchLatest_ok_latest {resp : FetchResponse} {r : Option String}
    (h : fetchLatest resp = .ok r) :
    resp.ok = true ∧ ∃ data, resp.body = some data ∧ latestOf data = r := by
  unfold fetchLatest at h
  cases hok : resp.ok with
  | false => rw [hok] at h; simp at h
  | true =>
    rw [hok] at h
    simp only [Bool.not_true, Bool.false_eq_true, if_false] at h
    cases hb : resp.body with
    | none => rw [hb] at h; cases h
    | some data =>
      rw [hb] at h
      refine ⟨rfl, data, rfl, ?_⟩
      cases h
      rfl

theorem fetchLatest_ok_ne_empty {resp : FetchResponse} {t : String}
    (h : fetchLatest resp = .ok (some t)) : t ≠ "" := by
  obtain ⟨_, data, _, hl⟩ := fetchLatest_ok_latest h
  exact (latestOf_spec data t hl).1

/-! ## A URL-parser stub for concrete evaluations

Concrete counterexamples and witnesses need a computable stand-in for the
URL constructor; the inputs they exercise never reach it or only reach it
at the remote production origin. -/

def noUrl : String → Option String := fun _ => none

/-! ## Claim C4 -/

/-- C4: the claim says normalizeZone at the registry and at the page both
accept exactly ^[A-Z0-9_-]{2,32}$ after upper-casing.  The registry does,
but the page version caps the length at 12: the 15-character zone
IT-CENTRE_NORTH, listed in the page controller's own COUNTRIES table and
matching the 2..32 pattern, is accepted by the registry and rejected by the
page.  A 13-character zone shows the exact cut-off. -/
theorem c4_pageNormalizeZone_rejects_own_zone :
    normalizeZone (.str "IT-CENTRE_NORTH") = some "IT-CENTRE_NORTH"
    ∧ pageNormalizeZone (.str "IT-CENTRE_NORTH") = none
    ∧ "IT-CENTRE_NORTH" ∈ pageItalyZones
    ∧ zonePatternOk "IT-CENTRE_NORTH" 2 32 = true
    ∧ normalizeZone (.str "ABCDEFGHIJKLM") = some "ABCDEFGHIJKLM"
    ∧ pageNormalizeZone (.str "ABCDEFGHIJKLM") = none
    ∧ pageNormalizeZone (.str "abcdefghijkl") = some "ABCDEFGHIJKL" := by
  decide

/-! ## Claim C10

CacheContent covers the cache bodies on which getState returns normally.
One parse-success body is missing from it: a body whose JSON is the
literal null.  For that body match.json() resolves (so the catch around
it is not taken) and the typeof read of stored.zone, which sits outside
any try/catch, throws a TypeError that escapes getState.  CacheBody is
the full domain including that case, and getStateFull is getState over
it, fallible exactly there. -/

/-- The full domain of cached bodies at STATE_URL: no match, a body that
fails to parse as JSON, a body that parses to JSON null, and a body that
parses to a JSON object. -/
inductive CacheBody where
  | empty
  | malformed
  | nullBody
  | stored (r : RawStored)
  deriving DecidableEq, Repr

/-- getState over the full body domain.  A missing record and a body that
makes match.json() throw are healed to the base state inside getState; a
body of JSON null passes the parse and the subsequent read of stored.zone
throws a TypeError that escapes getState; a parsed object is normalized
field by field exactly as in getState on CacheContent. -/
def getStateFull (urlOrigin : String → Option String) (isLocal : Bool) :
    CacheBody → Except String WatchState
  | .empty => .ok (baseState isLocal)
  | .malformed => .ok (baseState isLocal)
  | .nullBody => .error "TypeError: cannot read zone of null"
  | .stored r => .ok (getState urlOrigin isLocal (.stored r))

/-- C10 counterexample: a cached body of JSON null parses successfully and
getState then throws reading stored.zone, so getState neither returns the
all-default state nor any state at all for that cache content, refuting
that getState never throws for every cache content. -/
theorem c10_counterexample :
    getStateFull noUrl false .nullBody
      = .error "TypeError: cannot read zone of null"
    ∧ getStateFull noUrl false .nullBody ≠ .ok (baseState false) := by
  refine ⟨rfl, ?_⟩
  intro h
  exact Except.noConfusion h

/-- C10 (amended): getState is total and self-healing on every cache
content except a body of JSON null.  A missing record and an unparseable
body both produce the all-default base state (zone null, lastTimestamp
null, default origin and preset); every parsed object yields a state, in
which a wrongly typed zone or lastTimestamp field is coerced to null, an
empty-string zone is coerced to null, and string fields are kept; the one
body of JSON null parses and then makes getState throw. -/
theorem c10_getState_selfheals (u : String → Option String) (il : Bool) :
    getStateFull u il .empty = .ok (baseState il)
    ∧ getStateFull u il .malformed = .ok (baseState il)
    ∧ (∀ r : RawStored, getStateFull u il (.stored r) = .ok (getState u il (.stored r)))
    ∧ (∃ e, getStateFull u il .nullBody = .error e)
    ∧ (baseState il).zone = none
    ∧ (baseState il).lastTimestamp = none
    ∧ (baseState il).origin = DEFAULT_DATA_ORIGIN il
    ∧ (baseState il).originPreset = DEFAULT_ORIGIN_PRESET il
    ∧ (∀ r : RawStored, r.zone.isStr = false → (getState u il (.stored r)).zone = none)
    ∧ (∀ r : RawStored, r.lastTimestamp.isStr = false →
        (getState u il (.stored r)).lastTimestamp = none)
    ∧ (∀ r : RawStored, r.zone = .str "" → (getState u il (.stored r)).zone = none)
    ∧ (∀ (r : RawStored) (s : String), r.zone = .str s → s ≠ "" →
        (getState u il (.stored r)).zone = some s)
    ∧ (∀ (r : RawStored) (s : String), r.lastTimestamp = .str s →
        (getState u il (.stored r)).lastTimestamp = some s) := by
  refine ⟨rfl, rfl, fun r => rfl, ⟨_, rfl⟩, rfl, rfl, rfl, rfl, ?_, ?_, ?_, ?_, ?_⟩
  · intro r h
    rw [getState_stored_zone]
    cases hz : r.zone <;> simp [JsVal.isStr, hz] at h ⊢
  · intro r h
    rw [getState_stored_last]
    cases hz : r.lastTimestamp <;> simp [JsVal.isStr, hz] at h ⊢
  · intro r h
    rw [getState_stored_zone, h]
    simp
  · intro r s hr hs
    rw [getState_stored_zone, hr]
    simp [hs]
  · intro r s hr
    rw [getState_stored_last, hr]

/-- C10 witness: the amended theorem applied concretely; a record with a
numeric zone and boolean timestamp yields a state with both coerced to
null, and an unparseable body heals to the base state. -/
theorem c10_witness :
    (getState noUrl false (.stored ⟨.num 7, .boolean true, .str "", .str "zz"⟩)).zone = none
    ∧ (getState noUrl false
        (.stored ⟨.num 7, .boolean true, .str "", .str "zz"⟩)).lastTimestamp = none
    ∧ getStateFull noUrl false .malformed = .ok (baseState false) :=
  ⟨(c10_getState_selfheals noUrl false).2.2.2.2.2.2.2.2.1 _ (by decide),
   (c10_getState_selfheals noUrl false).2.2.2.2.2.2.2.2.2.1 _ (by decide),
   (c10_getState_selfheals noUrl false).2.1⟩

/-! ## Claim C3 -/

/-- C3 counterexample: on a non-success HTTP status, fetchLatest does not
return null; it throws (the error propagates out of fetchLatest). -/
theorem c3_counterexample :
    fetchLatest ⟨false, some []⟩ = .error "Failed to fetch latest"
    ∧ fetchLatest ⟨false, some []⟩ ≠ .ok none := by
  refine ⟨rfl, ?_⟩
  intro h
  exact Except.noConfusion h

/-- C3 (amended): fetchLatest returns the lexicographic maximum of the
truthy string timestamp fields on a success response with a parsed array
body, and throws on a non-success status or malformed body; the error is
caught by the caller handleSync, which then leaves the state unchanged and
raises no notification, so no exception escapes the poll cycle. -/
theorem c3_fetchLatest_spec (resp : FetchResponse) :
    (resp.ok = false → fetchLatest resp = .error "Failed to fetch latest")
    ∧ (resp.ok = true → resp.body = none → fetchLatest resp = .error "malformed body")
    ∧ (∀ data, resp.ok = true → resp.body = some data →
        fetchLatest resp = .ok (latestOf data)
        ∧ ∀ m, latestOf data = some m →
            m ≠ "" ∧ (∃ e ∈ data, entryTs e = some m)
            ∧ ∀ e ∈ data, ∀ t, entryTs e = some t → strLt m t = false)
    ∧ (∀ (u : String → Option String) (il : Bool) (cc : CacheContent) (msg : String),
        fetchLatest resp = .error msg → handleSync u il resp cc = ⟨cc, false, false⟩) := by
  refine ⟨?_, ?_, ?_, ?_⟩
  · intro h
    unfold fetchLatest
    rw [h]
    rfl
  · intro h1 h2
    unfold fetchLatest
    rw [h1, h2]
    rfl
  · intro data h1 h2
    refine ⟨by unfold fetchLatest; rw [h1, h2]; rfl, fun m hm => latestOf_spec data m hm⟩
  · intro u il cc msg h
    cases hz : (getState u il cc).zone with
    | none => simp [handleSync, hz]
    | some z => simp [handleSync, hz, h]

/-- C3 witness: the amended theorem applied at a concrete failing response. -/
theorem c3_witness :
    fetchLatest ⟨false, some []⟩ = .error "Failed to fetch latest"
    ∧ handleSync noUrl false ⟨false, some []⟩ .empty = ⟨.empty, false, false⟩ :=
  ⟨(c3_fetchLatest_spec ⟨false, some []⟩).1 rfl,
   (c3_fetchLatest_spec ⟨false, some []⟩).2.2.2 noUrl false .empty "Failed to fetch latest"
     ((c3_fetchLatest_spec ⟨false, some []⟩).1 rfl)⟩

/-! ## Claim C9 -/

/-- C9: the admin boundary fails closed.  When ADMIN_SECRET is unset or
empty, every admin route answers 401 whatever the Authorization header;
when it is set and nonempty, the admin routes answer 401 exactly when the
header differs from Bearer plus the secret. -/
theorem c9_admin_fails_closed (secret auth : Option String)
    (zoneParam zoneSeg bodyTs : JsVal) (method : String) :
    ((secret = none ∨ secret = some "") →
      adminSubsRoute secret auth zoneParam = 401
      ∧ adminTsRoute secret auth method zoneSeg bodyTs = 401)
    ∧ (∀ t, secret = some t → t ≠ "" →
        (adminSubsRoute secret auth zoneParam = 401 ↔ auth.getD "" ≠ "Bearer " ++ t)
        ∧ (adminTsRoute secret auth method zoneSeg bodyTs = 401
            ↔ auth.getD "" ≠ "Bearer " ++ t)) := by
  constructor
  · rintro (h | h) <;> subst h <;>
      exact ⟨by simp [adminSubsRoute, isAdmin], by simp [adminTsRoute, isAdmin]⟩
  · intro t ht hne
    subst ht
    by_cases hb : auth.getD "" = "Bearer " ++ t
    · have hadm : isAdmin (some t) auth = true := by simp [isAdmin, hne, hb]
      have hsubs : adminSubsRoute (some t) auth zoneParam ≠ 401 := by
        unfold adminSubsRoute
        rw [hadm]
        cases hnz : normalizeZone zoneParam <;> simp [hnz]
      have hts : adminTsRoute (some t) auth method zoneSeg bodyTs ≠ 401 := by
        unfold adminTsRoute
        rw [hadm]
        cases hnz : normalizeZone zoneSeg <;> simp [hnz]
        split_ifs <;> try simp
        cases bodyTs <;> simp
        split_ifs <;> try simp
      exact ⟨by simp [hsubs, hb], by simp [hts, hb]⟩
    · have hadm : isAdmin (some t) auth = false := by simp [isAdmin, hne, hb]
      exact ⟨by simp [adminSubsRoute, hadm, hb], by simp [adminTsRoute, hadm, hb]⟩

/-- C9 witness: concrete secret and headers on both sides of the boundary. -/
theorem c9_witness :
    adminSubsRoute none (some "Bearer s") (.str "SE1") = 401
    ∧ adminSubsRoute (some "s") (some "Bearer x") (.str "SE1") = 401
    ∧ adminTsRoute (some "s") (some "Bearer s") "PUT" (.str "SE1") (.str "2024") ≠ 401 :=
  ⟨((c9_admin_fails_closed none (some "Bearer s") (.str "SE1") (.str "SE1")
      (.str "2024") "PUT").1 (Or.inl rfl)).1,
   ((c9_admin_fails_closed (some "s") (some "Bearer x") (.str "SE1") (.str "SE1")
      (.str "2024") "PUT").2 "s" rfl (by decide)).1.mpr (by decide),
   fun h =>
     (by decide : ¬((some "Bearer s").getD "" ≠ "Bearer " ++ "s"))
       (((c9_admin_fails_closed (some "s") (some "Bearer s") (.str "SE1") (.str "SE1")
           (.str "2024") "PUT").2 "s" rfl (by decide)).2.mp h)⟩

/-! ## Claim C1 -/

theorem handleSetZone_eq (u : String → Option String) (il : Bool)
    (cc : CacheContent) (d : SetZoneMsg) (zB : String)
    (hz : d.zone = .str zB) (hzB : zB ≠ "") (hnt : d.lastTimestamp.isStr = false) :
    handleSetZone u il d cc = .stored (setState u il cc
      { zone := some (.str zB)
        lastTimestamp := some (jsOfOpt
          (if (getState u il cc).zone = some zB
           then (getState u il cc).lastTimestamp else none))
        origin := some (.str (getState u il cc).origin)
        originPreset := some (.str (getState u il cc).originPreset) }) := by
  unfold handleSetZone
  rw [hz]
  cases hd : d.lastTimestamp
  case str s => rw [hd] at hnt; simp [JsVal.isStr] at hnt
  all_goals simp [hzB, jsOfOpt]

theorem handleSetZone_spec (u : String → Option String) (il : Bool)
    (cc : CacheContent) (d : SetZoneMsg) (zB : String)
    (hz : d.zone = .str zB) (hzB : zB ≠ "") (hnt : d.lastTimestamp.isStr = false) :
    (getState u il (handleSetZone u il d cc)).zone = some zB
    ∧ ((getState u il cc).zone ≠ some zB →
        (getState u il (handleSetZone u il d cc)).lastTimestamp = none)
    ∧ ((getState u il cc).zone = some zB →
        (getState u il (handleSetZone u il d cc)).lastTimestamp
          = (getState u il cc).lastTimestamp) := by
  rw [handleSetZone_eq u il cc d zB hz hzB hnt]
  refine ⟨?_, ?_, ?_⟩
  · rw [getState_stored_zone, setState_zone_str u il cc _ zB rfl hzB]
    simp [hzB]
  · intro hne
    rw [getState_stored_last, setState_last_opt u il cc _ _ rfl]
    simp [hne, jsOfOpt]
  · intro heq
    rw [getState_stored_last, setState_last_opt u il cc _ _ rfl]
    cases hl : (getState u il cc).lastTimestamp <;> simp [heq, hl, jsOfOpt]

/-- C1: at the set-zone handler of the worker, a zone change to a different
non-null zone with no supplied lastTimestamp resets the stored timestamp to
null; re-sending the stored zone with no supplied timestamp preserves the
stored timestamp; in particular set-zone zoneA then set-zone zoneB with
zoneB different from zoneA and no timestamp yields a null lastTimestamp. -/
theorem c1_setZone_reset (u : String → Option String) (il : Bool)
    (cc : CacheContent) (d : SetZoneMsg) (zB : String)
    (hz : d.zone = .str zB) (hzB : zB ≠ "") (hnt : d.lastTimestamp.isStr = false) :
    ((getState u il cc).zone ≠ some zB →
        (getState u il (handleSetZone u il d cc)).lastTimestamp = none)
    ∧ ((getState u il cc).zone = some zB →
        (getState u il (handleSetZone u il d cc)).lastTimestamp
          = (getState u il cc).lastTimestamp)
    ∧ (getState u il (handleSetZone u il d cc)).zone = some zB
    ∧ (∀ (d1 : SetZoneMsg) (zA : String), d1.zone = .str zA → zA ≠ "" →
        d1.lastTimestamp.isStr = false → zA ≠ zB →
        (getState u il (handleSetZone u il d (handleSetZone u il d1 cc))).lastTimestamp
          = none) := by
  obtain ⟨h1, h2, h3⟩ := handleSetZone_spec u il cc d zB hz hzB hnt
  refine ⟨h2, h3, h1, ?_⟩
  intro d1 zA hz1 hzA hnt1 hAB
  obtain ⟨g1, g2, _⟩ :=
    handleSetZone_spec u il (handleSetZone u il d1 cc) d zB hz hzB hnt
  refine g2 ?_
  rw [(handleSetZone_spec u il cc d1 zA hz1 hzA hnt1).1]
  intro hcontra
  exact hAB (Option.some.inj hcontra)

/-- C1 witness: set-zone SE1 with a timestamp, then set-zone SE2 without
one; the stored timestamp is null afterwards. -/
theorem c1_witness :
    (getState noUrl false (handleSetZone noUrl false { zone := JsVal.str "SE2" }
      (handleSetZone noUrl false
        { zone := JsVal.str "SE1", lastTimestamp := JsVal.str "T1" }
        .empty))).lastTimestamp = none :=
  (c1_setZone_reset noUrl false
    (handleSetZone noUrl false
      { zone := JsVal.str "SE1", lastTimestamp := JsVal.str "T1" } .empty)
    { zone := JsVal.str "SE2" } "SE2" rfl (by decide) (by decide)).1 (by decide)

/-! ## Claim C6 -/

/-- C6: handlePushEvent always shows the notification, sets the badge and
relays new-prices; when the payload zone (uppercased) differs from the
stored zone it leaves the cached WatchState untouched; when it matches, it
persists the payload timestamp unconditionally, with no comparison against
the stored lastTimestamp. -/
theorem c6_push_frame (u : String → Option String) (il : Bool)
    (cc : CacheContent) (payload : PushPayload) (z t : String)
    (hz : payload.zone = .str z) (ht : payload.timestamp = .str t)
    (hzU : strToUpper z ≠ "") (htne : t ≠ "") :
    (handlePushEvent u il payload cc).notificationShown = true
    ∧ (handlePushEvent u il payload cc).badgeSet = true
    ∧ (handlePushEvent u il payload cc).newPricesRelayed = true
    ∧ ((getState u il cc).zone ≠ some (strToUpper z) →
        (handlePushEvent u il payload cc).cache = cc
        ∧ (handlePushEvent u il payload cc).persisted = false)
    ∧ ((getState u il cc).zone = some (strToUpper z) →
        (handlePushEvent u il payload cc).persisted = true
        ∧ (handlePushEvent u il payload cc).cache
          = .stored (setState u il cc
              { zone := some (.str (strToUpper z)), lastTimestamp := some (.str t) })
        ∧ (getState u il (handlePushEvent u il payload cc).cache).lastTimestamp
          = some t) := by
  refine ⟨?_, ?_, ?_, ?_, ?_⟩
  · by_cases hst : (getState u il cc).zone = some (strToUpper z) <;>
      simp [handlePushEvent, hz, ht, hzU, htne, hst]
  · by_cases hst : (getState u il cc).zone = some (strToUpper z) <;>
      simp [handlePushEvent, hz, ht, hzU, htne, hst]
  · by_cases hst : (getState u il cc).zone = some (strToUpper z) <;>
      simp [handlePushEvent, hz, ht, hzU, htne, hst]
  · intro hne
    constructor <;> simp [handlePushEvent, hz, ht, hzU, htne, hne]
  · intro heq
    have hcache : (handlePushEvent u il payload cc).cache
        = .stored (setState u il cc
            { zone := some (.str (strToUpper z)), lastTimestamp := some (.str t) }) := by
      simp [handlePushEvent, hz, ht, hzU, htne, heq]
    refine ⟨by simp [handlePushEvent, hz, ht, hzU, htne, heq], hcache, ?_⟩
    rw [hcache]
    exact (sync_roundtrip u il cc (strToUpper z) t hzU).2

/-- A stored worker state watching SE1 with a stored timestamp. -/
def watchSE1 : CacheContent := .stored ⟨.str "SE1", .str "Z9", .str "", .str "local"⟩

/-- C6 witness: a push for se1 while watching SE1 persists the payload
timestamp T0 even though it is lexicographically below the stored Z9; a
push for DK1 leaves the cache unchanged but still notifies. -/
theorem c6_witness :
    (getState noUrl false (handlePushEvent noUrl false
        { zone := JsVal.str "se1", timestamp := JsVal.str "T0" } watchSE1).cache).lastTimestamp
      = some "T0"
    ∧ (handlePushEvent noUrl false
        { zone := JsVal.str "DK1", timestamp := JsVal.str "T0" } watchSE1).cache = watchSE1
    ∧ (handlePushEvent noUrl false
        { zone := JsVal.str "DK1", timestamp := JsVal.str "T0" } watchSE1).notificationShown
      = true :=
  ⟨((c6_push_frame noUrl false watchSE1
      { zone := JsVal.str "se1", timestamp := JsVal.str "T0" } "se1" "T0"
      rfl rfl (by decide) (by decide)).2.2.2.2 (by decide)).2.2,
   ((c6_push_frame noUrl false watchSE1
      { zone := JsVal.str "DK1", timestamp := JsVal.str "T0" } "DK1" "T0"
      rfl rfl (by decide) (by decide)).2.2.2.1 (by decide)).1,
   (c6_push_frame noUrl false watchSE1
      { zone := JsVal.str "DK1", timestamp := JsVal.str "T0" } "DK1" "T0"
      rfl rfl (by decide) (by decide)).1⟩

/-! ## Claim C8 -/

/-- C8 counterexample: with no local push subscription, disableAlerts posts
exactly a clear-badge message to the worker and clears the navigator badge;
no set-zone (zone-clear) message is ever sent, contrary to the claim that
it always tells the worker to clear the zone. -/
theorem c8_counterexample :
    (disableAlerts ⟨true, false, true, "h", true, true, true⟩).events
      = [PageEvent.workerMsg .clearBadge, PageEvent.navClearBadge]
    ∧ ((disableAlerts ⟨true, false, true, "h", true, true, true⟩).events.all
        (fun e => !e.isSetZoneMsg)) = true
    ∧ PageEvent.workerMsg (.setZone none none)
        ∉ (disableAlerts ⟨true, false, true, "h", true, true, true⟩).events := by
  decide

/-- C8 (amended): disableAlerts never throws and always ends unsubscribed;
whenever the service worker is reachable it posts a clear-badge message to
the worker (it sends no set-zone message, so the stored zone is not cleared),
including when no local subscription exists; a failing registry delete is
logged and does not prevent the clear-badge message. -/
theorem c8_disableAlerts (env : PageEnv) :
    (disableAlerts env).threw = false
    ∧ (disableAlerts env).finalSubscribed = false
    ∧ ((disableAlerts env).events.all (fun e => !e.isSetZoneMsg)) = true
    ∧ (env.swOk = true → PageEvent.workerMsg .clearBadge ∈ (disableAlerts env).events)
    ∧ (env.swOk = true → env.hasSubscription = false →
        (disableAlerts env).events
          = PageEvent.workerMsg .clearBadge
            :: (if env.hasNavClearBadge then [PageEvent.navClearBadge] else []))
    ∧ (env.swOk = true → env.hasSubscription = true → env.endpointHashOk = true →
        env.registryDeleteOk = false →
        PageEvent.registryDeleteFailLogged ∈ (disableAlerts env).events
        ∧ PageEvent.workerMsg .clearBadge ∈ (disableAlerts env).events) := by
  obtain ⟨swOk, hasSub, hashOk, eh, regOk, unsubOk, navOk⟩ := env
  cases swOk <;> cases hasSub <;> cases hashOk <;> cases regOk <;>
    cases unsubOk <;> cases navOk <;>
    simp [disableAlerts, unsubscribePush, PageEvent.isSetZoneMsg]

/-- C8 witness: the amended theorem applied with no local subscription. -/
theorem c8_witness :
    (disableAlerts ⟨true, false, true, "h", true, false, true⟩).threw = false
    ∧ PageEvent.workerMsg .clearBadge
        ∈ (disableAlerts ⟨true, false, true, "h", true, false, true⟩).events :=
  ⟨(c8_disableAlerts ⟨true, false, true, "h", true, false, true⟩).1,
   (c8_disableAlerts ⟨true, false, true, "h", true, false, true⟩).2.2.2.1 rfl⟩

/-! ## Claim C5 -/

theorem zonePatternOk_ne_empty {s : String} {lo hi : Nat} (hlo : 1 ≤ lo)
    (h : zonePatternOk s lo hi = true) : s ≠ "" := by
  intro hs
  subst hs
  unfold zonePatternOk at h
  have hd : ("" : String).data = [] := rfl
  rw [hd] at h
  simp at h
  omega

theorem normalizeZone_some_ne_empty {v : JsVal} {z : String}
    (h : normalizeZone v = some z) : z ≠ "" := by
  cases v with
  | str s =>
    have h2 : (if s = "" then none
        else if zonePatternOk (strToUpper s) 2 32 = true
          then some (strToUpper s) else none) = some z := h
    by_cases hs : s = ""
    · rw [if_pos hs] at h2; cases h2
    · rw [if_neg hs] at h2
      by_cases hp : zonePatternOk (strToUpper s) 2 32 = true
      · rw [if_pos hp] at h2
        cases h2
        exact zonePatternOk_ne_empty (by omega) hp
      · rw [if_neg hp] at h2; cases h2
  | num n => simp [normalizeZone] at h
  | boolean b => simp [normalizeZone] at h
  | null => simp [normalizeZone] at h
  | undef => simp [normalizeZone] at h

theorem subscribeHandler_valid (hash : String → String) (kv : KV)
    (sub : Subscription) (v : JsVal) (zone : String)
    (hz : normalizeZone v = some zone) :
    subscribeHandler hash kv (some ⟨some sub, v⟩)
      = ⟨201, some (hash sub.endpoint, zone),
          kvPut (kvPut
            (match kv (.map (hash sub.endpoint)) with
             | some (.strVal oldZone) =>
               if oldZone ≠ "" ∧ oldZone ≠ zone
               then kvDelete kv (.sub oldZone (hash sub.endpoint)) else kv
             | _ => kv)
            (.sub zone (hash sub.endpoint)) (.subVal sub))
            (.map (hash sub.endpoint)) (.strVal zone)⟩ := by
  simp [subscribeHandler, hz]

theorem subscribeHandler_fresh (hash : String → String) (kv : KV)
    (sub : Subscription) (v : JsVal) (zone : String)
    (hz : normalizeZone v = some zone)
    (hm : kv (.map (hash sub.endpoint)) = none) :
    subscribeHandler hash kv (some ⟨some sub, v⟩)
      = ⟨201, some (hash sub.endpoint, zone),
          kvPut (kvPut kv (.sub zone (hash sub.endpoint)) (.subVal sub))
            (.map (hash sub.endpoint)) (.strVal zone)⟩ := by
  rw [subscribeHandler_valid hash kv sub v zone hz, hm]

theorem subscribeHandler_rebind (hash : String → String) (kv : KV)
    (sub : Subscription) (v : JsVal) (zone old : String)
    (hz : normalizeZone v = some zone)
    (hm : kv (.map (hash sub.endpoint)) = some (.strVal old))
    (ho1 : old ≠ "") (ho2 : old ≠ zone) :
    subscribeHandler hash kv (some ⟨some sub, v⟩)
      = ⟨201, some (hash sub.endpoint, zone),
          kvPut (kvPut (kvDelete kv (.sub old (hash sub.endpoint)))
            (.sub zone (hash sub.endpoint)) (.subVal sub))
            (.map (hash sub.endpoint)) (.strVal zone)⟩ := by
  rw [subscribeHandler_valid hash kv sub v zone hz, hm]
  simp [ho1, ho2]

/-- C5: registering the same subscription first under Z1 and then under a
different zone Z2, starting from an empty store, answers 201 with the same
content-addressed id both times, leaves no record under any sub:Z1:* key,
exactly the one record under sub:Z2:id, and the reverse map pointing at Z2. -/
theorem c5_register_reassign (hash : String → String) (sub : Subscription)
    (Z1 Z2 : String)
    (hn1 : normalizeZone (.str Z1) = some Z1)
    (hn2 : normalizeZone (.str Z2) = some Z2)
    (hne : Z1 ≠ Z2) :
    (subscribeHandler hash (fun _ => none) (some ⟨some sub, .str Z1⟩)).status = 201
    ∧ (subscribeHandler hash (fun _ => none) (some ⟨some sub, .str Z1⟩)).result
        = some (hash sub.endpoint, Z1)
    ∧ (subscribeHandler hash
        (subscribeHandler hash (fun _ => none) (some ⟨some sub, .str Z1⟩)).store
        (some ⟨some sub, .str Z2⟩)).status = 201
    ∧ (subscribeHandler hash
        (subscribeHandler hash (fun _ => none) (some ⟨some sub, .str Z1⟩)).store
        (some ⟨some sub, .str Z2⟩)).result = some (hash sub.endpoint, Z2)
    ∧ (∀ i, (subscribeHandler hash
        (subscribeHandler hash (fun _ => none) (some ⟨some sub, .str Z1⟩)).store
        (some ⟨some sub, .str Z2⟩)).store (.sub Z1 i) = none)
    ∧ (subscribeHandler hash
        (subscribeHandler hash (fun _ => none) (some ⟨some sub, .str Z1⟩)).store
        (some ⟨some sub, .str Z2⟩)).store (.sub Z2 (hash sub.endpoint))
        = some (.subVal sub)
    ∧ (∀ z i, (subscribeHandler hash
        (subscribeHandler hash (fun _ => none) (some ⟨some sub, .str Z1⟩)).store
        (some ⟨some sub, .str Z2⟩)).store (.sub z i) ≠ none
        → z = Z2 ∧ i = hash sub.endpoint)
    ∧ (subscribeHandler hash
        (subscribeHandler hash (fun _ => none) (some ⟨some sub, .str Z1⟩)).store
        (some ⟨some sub, .str Z2⟩)).store (.map (hash sub.endpoint))
        = some (.strVal Z2) := by
  have hZ1e : Z1 ≠ "" := normalizeZone_some_ne_empty hn1
  have h1 : subscribeHandler hash (fun _ => none) (some ⟨some sub, .str Z1⟩)
      = ⟨201, some (hash sub.endpoint, Z1),
          kvPut (kvPut (fun _ => none) (.sub Z1 (hash sub.endpoint)) (.subVal sub))
            (.map (hash sub.endpoint)) (.strVal Z1)⟩ :=
    subscribeHandler_fresh hash (fun _ => none) sub (.str Z1) Z1 hn1 rfl
  have hst1 : (subscribeHandler hash (fun _ => none) (some ⟨some sub, .str Z1⟩)).store
      = kvPut (kvPut (fun _ => none) (.sub Z1 (hash sub.endpoint)) (.subVal sub))
          (.map (hash sub.endpoint)) (.strVal Z1) := by
    rw [h1]
  have hmap1 : (subscribeHandler hash (fun _ => none)
        (some ⟨some sub, .str Z1⟩)).store (.map (hash sub.endpoint))
      = some (.strVal Z1) := by
    rw [hst1]
    simp [kvPut]
  have h2 : subscribeHandler hash
      (subscribeHandler hash (fun _ => none) (some ⟨some sub, .str Z1⟩)).store
      (some ⟨some sub, .str Z2⟩)
      = ⟨201, some (hash sub.endpoint, Z2),
          kvPut (kvPut
            (kvDelete
              (subscribeHandler hash (fun _ => none) (some ⟨some sub, .str Z1⟩)).store
              (.sub Z1 (hash sub.endpoint)))
            (.sub Z2 (hash sub.endpoint)) (.subVal sub))
            (.map (hash sub.endpoint)) (.strVal Z2)⟩ :=
    subscribeHandler_rebind hash _ sub (.str Z2) Z2 Z1 hn2 hmap1 hZ1e hne
  refine ⟨by rw [h1], by rw [h1], by rw [h2], by rw [h2], ?_, ?_, ?_, ?_⟩
  · intro i
    rw [h2]
    by_cases hi : i = hash sub.endpoint <;> simp [kvPut, kvDelete, hne, hi, hst1]
  · rw [h2]
    simp [kvPut]
  · intro z i hnz
    rw [h2] at hnz
    by_cases hk : KKey.sub z i = KKey.sub Z2 (hash sub.endpoint)
    · simpa using hk
    · exfalso
      apply hnz
      by_cases hk2 : KKey.sub z i = KKey.sub Z1 (hash sub.endpoint) <;>
        simp [kvPut, kvDelete, hk, hk2, hst1, hne]
  · rw [h2]
    simp [kvPut]

/-- C5 witness: concrete hash, subscription and zones SE1 then SE2. -/
theorem c5_witness :
    (subscribeHandler (fun s => s ++ "#") (fun _ => none)
      (some ⟨some ⟨"ep", "p", "a"⟩, .str "SE1"⟩)).status = 201
    ∧ (subscribeHandler (fun s => s ++ "#")
        (subscribeHandler (fun s => s ++ "#") (fun _ => none)
          (some ⟨some ⟨"ep", "p", "a"⟩, .str "SE1"⟩)).store
        (some ⟨some ⟨"ep", "p", "a"⟩, .str "SE2"⟩)).store
        (.sub "SE1" ("ep" ++ "#")) = none
    ∧ (subscribeHandler (fun s => s ++ "#")
        (subscribeHandler (fun s => s ++ "#") (fun _ => none)
          (some ⟨some ⟨"ep", "p", "a"⟩, .str "SE1"⟩)).store
        (some ⟨some ⟨"ep", "p", "a"⟩, .str "SE2"⟩)).store
        (.sub "SE2" ("ep" ++ "#")) = some (.subVal ⟨"ep", "p", "a"⟩)
    ∧ (subscribeHandler (fun s => s ++ "#")
        (subscribeHandler (fun s => s ++ "#") (fun _ => none)
          (some ⟨some ⟨"ep", "p", "a"⟩, .str "SE1"⟩)).store
        (some ⟨some ⟨"ep", "p", "a"⟩, .str "SE2"⟩)).store
        (.map ("ep" ++ "#")) = some (.strVal "SE2") :=
  have h := c5_register_reassign (fun s => s ++ "#") ⟨"ep", "p", "a"⟩ "SE1" "SE2"
    (by decide) (by decide) (by decide)
  ⟨h.1, h.2.2.2.2.1 ("ep" ++ "#"), h.2.2.2.2.2.1, h.2.2.2.2.2.2.2⟩

/-! ## Claim C2 -/

theorem handleSync_no_prev (u : String → Option String) (il : Bool)
    (cc : CacheContent) (r : FetchResponse) (z t : String)
    (hz : (getState u il cc).zone = some z)
    (hl : (getState u il cc).lastTimestamp = none)
    (hf : fetchLatest r = .ok (some t)) :
    handleSync u il r cc
      = ⟨.stored (setState u il cc
          { zone := some (.str z), lastTimestamp := some (.str t) }), false, true⟩ := by
  have ht : t ≠ "" := fetchLatest_ok_ne_empty hf
  simp only [handleSync]
  rw [hz, hf]
  simp [ht, hl]

theorem handleSync_with_prev (u : String → Option String) (il : Bool)
    (cc : CacheContent) (r : FetchResponse) (z t p : String)
    (hz : (getState u il cc).zone = some z)
    (hl : (getState u il cc).lastTimestamp = some p) (hp : p ≠ "")
    (hf : fetchLatest r = .ok (some t)) :
    handleSync u il r cc
      = if strLt p t
        then ⟨.stored (setState u il cc
            { zone := some (.str z), lastTimestamp := some (.str t) }), true, true⟩
        else ⟨cc, false, false⟩ := by
  have ht : t ≠ "" := fetchLatest_ok_ne_empty hf
  simp only [handleSync]
  rw [hz, hf]
  simp [ht, hl, hp]

theorem handleSync_step (u : String → Option String) (il : Bool)
    (cc : CacheContent) (r : FetchResponse) (z p t : String)
    (hz : (getState u il cc).zone = some z)
    (hl : (getState u il cc).lastTimestamp = some p) (hp : p ≠ "")
    (hf : fetchLatest r = .ok (some t))
    (hle : strLt t p = false) :
    (getState u il (handleSync u il r cc).cache).zone = some z
    ∧ (getState u il (handleSync u il r cc).cache).lastTimestamp = some t
    ∧ (handleSync u il r cc).announced = strLt p t := by
  have hzne : z ≠ "" := getState_zone_ne_empty hz
  rw [handleSync_with_prev u il cc r z t p hz hl hp hf]
  by_cases hlt : strLt p t = true
  · rw [if_pos hlt]
    exact ⟨(sync_roundtrip u il cc z t hzne).1, (sync_roundtrip u il cc z t hzne).2,
      by simp [hlt]⟩
  · have hlt2 : strLt p t = false := by
      cases hx : strLt p t
      · rfl
      · exact absurd hx hlt
    rw [if_neg hlt]
    have hpt : p = t := strLt_connex hlt2 hle
    subst hpt
    exact ⟨hz, hl, (strLt_irrefl p).symm⟩

/-- C2 counterexample: with a watched zone and no previously stored
timestamp, a poll that fetches a fresh timestamp persists it and relays
state-updated, but does not fire the notification or badge, contrary to the
claim that persisting with no previous timestamp triggers notify-and-badge. -/
theorem c2_counterexample :
    (getState noUrl false
        (.stored ⟨.str "SE1", .null, .str "", .str "local"⟩)).lastTimestamp = none
    ∧ (handleSync noUrl false ⟨true, some [some (some "2024-01-01")]⟩
        (.stored ⟨.str "SE1", .null, .str "", .str "local"⟩)).stateUpdated = true
    ∧ (getState noUrl false (handleSync noUrl false ⟨true, some [some (some "2024-01-01")]⟩
        (.stored ⟨.str "SE1", .null, .str "", .str "local"⟩)).cache).lastTimestamp
        = some "2024-01-01"
    ∧ (handleSync noUrl false ⟨true, some [some (some "2024-01-01")]⟩
        (.stored ⟨.str "SE1", .null, .str "", .str "local"⟩)).announced = false := by
  decide

/-- C2 (amended): three polls for the same watched zone whose fetches
return t1, t2, t3 with t1 at most t2 at most t3, starting with no stored
timestamp, end with lastTimestamp t3 and the zone unchanged; the first poll
persists and relays without announcing, and each later poll announces
exactly when its fetched timestamp strictly exceeds the previously
persisted one. -/
theorem c2_sync_monotone (u : String → Option String) (il : Bool)
    (cc : CacheContent) (r1 r2 r3 : FetchResponse) (z t1 t2 t3 : String)
    (hz : (getState u il cc).zone = some z)
    (h0 : (getState u il cc).lastTimestamp = none)
    (hf1 : fetchLatest r1 = .ok (some t1))
    (hf2 : fetchLatest r2 = .ok (some t2))
    (hf3 : fetchLatest r3 = .ok (some t3))
    (h12 : strLt t2 t1 = false) (h23 : strLt t3 t2 = false) :
    (getState u il (handleSync u il r3 (handleSync u il r2
        (handleSync u il r1 cc).cache).cache).cache).lastTimestamp = some t3
    ∧ (getState u il (handleSync u il r3 (handleSync u il r2
        (handleSync u il r1 cc).cache).cache).cache).zone = some z
    ∧ (handleSync u il r1 cc).announced = false
    ∧ (handleSync u il r1 cc).stateUpdated = true
    ∧ (handleSync u il r2 (handleSync u il r1 cc).cache).announced = strLt t1 t2
    ∧ (handleSync u il r3 (handleSync u il r2
        (handleSync u il r1 cc).cache).cache).announced = strLt t2 t3 := by
  have hzne : z ≠ "" := getState_zone_ne_empty hz
  have ht1 : t1 ≠ "" := fetchLatest_ok_ne_empty hf1
  have ht2 : t2 ≠ "" := fetchLatest_ok_ne_empty hf2
  have h1 := handleSync_no_prev u il cc r1 z t1 hz h0 hf1
  have hz1 : (getState u il (handleSync u il r1 cc).cache).zone = some z := by
    rw [h1]
    exact (sync_roundtrip u il cc z t1 hzne).1
  have hl1 : (getState u il (handleSync u il r1 cc).cache).lastTimestamp = some t1 := by
    rw [h1]
    exact (sync_roundtrip u il cc z t1 hzne).2
  have step2 := handleSync_step u il (handleSync u il r1 cc).cache r2 z t1 t2
    hz1 hl1 ht1 hf2 h12
  have step3 := handleSync_step u il
    (handleSync u il r2 (handleSync u il r1 cc).cache).cache r3 z t2 t3
    step2.1 step2.2.1 ht2 hf3 h23
  exact ⟨step3.2.1, step3.1, by rw [h1], by rw [h1], step2.2.2, step3.2.2⟩

/-- C2 witness: fetched timestamps A, B, B from a fresh watch of SE1. -/
theorem c2_witness :
    (getState noUrl false (handleSync noUrl false ⟨true, some [some (some "B")]⟩
        (handleSync noUrl false ⟨true, some [some (some "B")]⟩
          (handleSync noUrl false ⟨true, some [some (some "A")]⟩
            (.stored ⟨.str "SE1", .null, .str "", .str "local"⟩)).cache).cache).cache).lastTimestamp
      = some "B"
    ∧ (handleSync noUrl false ⟨true, some [some (some "A")]⟩
        (.stored ⟨.str "SE1", .null, .str "", .str "local"⟩)).announced = false
    ∧ (handleSync noUrl false ⟨true, some [some (some "B")]⟩
        (handleSync noUrl false ⟨true, some [some (some "A")]⟩
          (.stored ⟨.str "SE1", .null, .str "", .str "local"⟩)).cache).announced
      = strLt "A" "B" :=
  have h := c2_sync_monotone noUrl false
    (.stored ⟨.str "SE1", .null, .str "", .str "local"⟩)
    ⟨true, some [some (some "A")]⟩ ⟨true, some [some (some "B")]⟩
    ⟨true, some [some (some "B")]⟩ "SE1" "A" "B" "B"
    (by decide) (by decide) rfl rfl rfl (by decide) (by decide)
  ⟨h.1, h.2.2.1, h.2.2.2.2.1⟩

/-! ## Claim C7: preset-resolution algebra -/

theorem remote_ne_empty : REMOTE_DATA_ORIGIN ≠ "" := by decide

theorem empty_ne_remote : "" ≠ REMOTE_DATA_ORIGIN := by decide

theorem resolve_mem (o : String) (x : JsVal) :
    resolvePresetForOrigin o x = "local" ∨ resolvePresetForOrigin o x = "remote"
    ∨ resolvePresetForOrigin o x = "custom" := by
  cases x <;> simp only [resolvePresetForOrigin, resolvePresetFallback] <;>
    split_ifs <;> simp

theorem resolve_remote_origin {o : String} {x : JsVal}
    (h : resolvePresetForOrigin o x = "remote") : o = REMOTE_DATA_ORIGIN := by
  cases x <;> simp only [resolvePresetForOrigin, resolvePresetFallback] at h <;>
    split_ifs at h <;> simp_all

/-- The origin forcing applied by setState after the first preset
resolution: local empties the origin, remote pins it to the production
origin, custom keeps it. -/
def forceOriginFor (r o : String) : String :=
  if r = "local" then "" else if r = "remote" then REMOTE_DATA_ORIGIN else o

theorem resolvePair_eq (o : String) (x : JsVal) :
    resolvePair o x
      = (forceOriginFor (resolvePresetForOrigin o x) o,
         resolvePresetForOrigin o x) := by
  unfold resolvePair forceOriginFor
  rcases resolve_mem o x with h | h | h <;> rw [h] <;>
    simp [resolvePresetForOrigin, remote_ne_empty]

theorem force_idem (r o : String) :
    forceOriginFor r (forceOriginFor r o) = forceOriginFor r o := by
  unfold forceOriginFor
  split_ifs <;> rfl

theorem fallback_force (o : String) :
    resolvePresetFallback (forceOriginFor (resolvePresetFallback o) o)
      = resolvePresetFallback o := by
  by_cases hoE : o = ""
  · subst hoE
    simp [resolvePresetFallback, forceOriginFor]
  · by_cases hoR : o = REMOTE_DATA_ORIGIN
    · subst hoR
      simp [resolvePresetFallback, forceOriginFor, remote_ne_empty]
    · simp [resolvePresetFallback, forceOriginFor, hoE, hoR]

theorem resolve_force (o : String) (x : JsVal) :
    resolvePresetForOrigin (forceOriginFor (resolvePresetForOrigin o x) o) x
      = resolvePresetForOrigin o x := by
  cases x with
  | str s =>
    by_cases hl : s = "local"
    · subst hl
      simp [resolvePresetForOrigin, forceOriginFor]
    · by_cases hr : s = "remote"
      · subst hr
        by_cases hoR : o = REMOTE_DATA_ORIGIN
        · subst hoR
          simp [resolvePresetForOrigin, forceOriginFor]
        · by_cases hoE : o = ""
          · subst hoE
            simp [resolvePresetForOrigin, forceOriginFor, empty_ne_remote,
              remote_ne_empty]
          · simp [resolvePresetForOrigin, forceOriginFor, hoR, hoE]
      · by_cases hc : s = "custom"
        · subst hc
          simp [resolvePresetForOrigin, forceOriginFor]
        · have he : resolvePresetForOrigin o (.str s) = resolvePresetFallback o := by
            simp [resolvePresetForOrigin, hl, hr, hc]
          rw [he]
          have he2 : resolvePresetForOrigin
              (forceOriginFor (resolvePresetFallback o) o) (.str s)
              = resolvePresetFallback (forceOriginFor (resolvePresetFallback o) o) := by
            simp [resolvePresetForOrigin, hl, hr, hc]
          rw [he2]
          exact fallback_force o
  | num n => exact fallback_force o
  | boolean b => exact fallback_force o
  | null => exact fallback_force o
  | undef => exact fallback_force o

theorem resolvePair_restart_first (o : String) (x : JsVal) :
    resolvePair (resolvePair o x).1 x = resolvePair o x := by
  rw [resolvePair_eq o x]
  simp only []
  rw [resolvePair_eq (forceOriginFor (resolvePresetForOrigin o x) o) x]
  rw [resolve_force o x, force_idem]

theorem resolvePair_restart_preset (o : String) (x : JsVal) :
    resolvePair o (.str (resolvePair o x).2) = resolvePair o x := by
  rw [resolvePair_eq o x]
  simp only []
  rcases resolve_mem o x with h | h | h
  · rw [h, resolvePair_eq]
    simp [resolvePresetForOrigin]
  · have hO : o = REMOTE_DATA_ORIGIN := resolve_remote_origin h
    subst hO
    rw [h, resolvePair_eq]
    simp [resolvePresetForOrigin, forceOriginFor]
  · rw [h, resolvePair_eq]
    simp [resolvePresetForOrigin, forceOriginFor]

theorem resolvePair_restart_both (o : String) (x : JsVal) :
    resolvePair (resolvePair o x).1 (.str (resolvePair o x).2) = resolvePair o x := by
  rw [resolvePair_eq o x]
  simp only []
  rcases resolve_mem o x with h | h | h
  · rw [h, resolvePair_eq]
    simp [resolvePresetForOrigin, forceOriginFor]
  · rw [h, resolvePair_eq]
    simp [resolvePresetForOrigin, forceOriginFor, remote_ne_empty]
  · rw [h, resolvePair_eq]
    simp [resolvePresetForOrigin, forceOriginFor]

theorem resolvePair_restart {a : String} {x : JsVal} {a2 : String} {x2 : JsVal}
    (ha : a2 = a ∨ a2 = (resolvePair a x).1)
    (hx : x2 = x ∨ x2 = .str (resolvePair a x).2) :
    resolvePair a2 x2 = resolvePair a x := by
  rcases ha with h | h <;> rcases hx with g | g
  · subst h; subst g; rfl
  · subst h; subst g; exact resolvePair_restart_preset _ _
  · subst h; subst g; exact resolvePair_restart_first _ _
  · subst h; subst g; exact resolvePair_restart_both _ _

theorem resolvePair_stable (o : String) (x : JsVal) :
    resolvePresetForOrigin (resolvePair o x).1 (.str (resolvePair o x).2)
      = (resolvePair o x).2 := by
  have h := resolvePair_restart_both o x
  rw [resolvePair_eq (resolvePair o x).1 (.str (resolvePair o x).2)] at h
  have h2 := congrArg Prod.snd h
  simpa using h2

/-! ## Claim C7: the URL parser and origin sanitizing

GoodURL captures the properties of the platform URL parser the development
relies on: a returned origin is a nonempty, trimmed string with an http(s)
scheme that reparses to itself, and the production origin parses to itself. -/

def GoodURL (u : String → Option String) : Prop :=
  (∀ c o, u c = some o →
    o ≠ "" ∧ strTrim o = o ∧ hasHttpScheme o = true ∧ u o = some o)
  ∧ u REMOTE_DATA_ORIGIN = some REMOTE_DATA_ORIGIN

theorem sanitize_fix {u : String → Option String} (hu : GoodURL u) (s : String) :
    sanitizeOriginValue u (.str s) = ""
    ∨ sanitizeOriginValue u (.str (sanitizeOriginValue u (.str s)))
        = sanitizeOriginValue u (.str s) := by
  by_cases ht : strTrim s = ""
  · left
    simp [sanitizeOriginValue, ht]
  · cases hc : u (if hasHttpScheme (strTrim s) then strTrim s
        else "https://" ++ strTrim s) with
    | none =>
      left
      simp [sanitizeOriginValue, ht, hc]
    | some o =>
      have hv : sanitizeOriginValue u (.str s) = o := by
        simp [sanitizeOriginValue, ht, hc]
      obtain ⟨hne, htr, hsc, hfix⟩ := hu.1 _ o hc
      right
      rw [hv]
      simp [sanitizeOriginValue, htr, hne, hsc, hfix]

theorem sanitize_remote {u : String → Option String} (hu : GoodURL u) :
    sanitizeOriginValue u (.str REMOTE_DATA_ORIGIN) = REMOTE_DATA_ORIGIN := by
  have h1 : strTrim REMOTE_DATA_ORIGIN = REMOTE_DATA_ORIGIN := by decide
  have h2 : hasHttpScheme REMOTE_DATA_ORIGIN = true := by decide
  simp [sanitizeOriginValue, h1, h2, remote_ne_empty, hu.2]

/-- An origin value that survives a sanitizing round trip (or is empty);
every origin the worker ever stores has this shape. -/
def GoodOrigin (u : String → Option String) (o : String) : Prop :=
  o = "" ∨ sanitizeOriginValue u (.str o) = o

theorem goodOrigin_sanitize {u : String → Option String} (hu : GoodURL u)
    (s : String) : GoodOrigin u (sanitizeOriginValue u (.str s)) :=
  sanitize_fix hu s

theorem goodOrigin_remote {u : String → Option String} (hu : GoodURL u) :
    GoodOrigin u REMOTE_DATA_ORIGIN := Or.inr (sanitize_remote hu)

theorem goodOrigin_default {u : String → Option String} (hu : GoodURL u)
    (il : Bool) : GoodOrigin u (DEFAULT_DATA_ORIGIN il) := by
  cases il
  · exact Or.inl rfl
  · exact goodOrigin_remote hu

theorem goodOrigin_stable {u : String → Option String} {o : String}
    (ho : GoodOrigin u o) (hne : o ≠ "") :
    sanitizeOriginValue u (.str o) = o := by
  rcases ho with h | h
  · exact absurd h hne
  · exact h

theorem getState_stored_origin (u : String → Option String) (il : Bool)
    (r : RawStored) :
    (getState u il (.stored r)).origin =
      (if (match r.origin with
            | JsVal.str s => s
            | _ => DEFAULT_DATA_ORIGIN il) = ""
       then ""
       else if sanitizeOriginValue u (.str (match r.origin with
            | JsVal.str s => s
            | _ => DEFAULT_DATA_ORIGIN il)) ≠ ""
         then sanitizeOriginValue u (.str (match r.origin with
            | JsVal.str s => s
            | _ => DEFAULT_DATA_ORIGIN il))
         else DEFAULT_DATA_ORIGIN il) := rfl

theorem getState_stored_preset (u : String → Option String) (il : Bool)
    (r : RawStored) :
    (getState u il (.stored r)).originPreset
      = resolvePresetForOrigin ((getState u il (.stored r)).origin)
          (match r.originPreset with
           | JsVal.str s => JsVal.str s
           | _ => JsVal.null) := rfl

theorem getState_origin_good {u : String → Option String} (hu : GoodURL u)
    (il : Bool) (cc : CacheContent) :
    GoodOrigin u ((getState u il cc).origin) := by
  cases cc with
  | empty => exact goodOrigin_default hu il
  | malformed => exact goodOrigin_default hu il
  | stored r =>
    rw [getState_stored_origin]
    generalize (match r.origin with
      | JsVal.str s => s
      | _ => DEFAULT_DATA_ORIGIN il) = raw
    by_cases h0 : raw = ""
    · rw [if_pos h0]
      exact Or.inl rfl
    · rw [if_neg h0]
      by_cases hs : sanitizeOriginValue u (.str raw) ≠ ""
      · rw [if_pos hs]
        exact goodOrigin_sanitize hu raw
      · rw [if_neg hs]
        exact goodOrigin_default hu il

theorem mergeOrigin_str (u : String → Option String) (c s : String) :
    mergeOrigin u c (some (.str s))
      = (if s = "" then ""
         else if sanitizeOriginValue u (.str s) ≠ ""
           then sanitizeOriginValue u (.str s) else c) := rfl

theorem mergeOrigin_good {u : String → Option String} (hu : GoodURL u)
    {co : String} (hco : GoodOrigin u co) (po : Option JsVal) :
    GoodOrigin u (mergeOrigin u co po) := by
  cases po with
  | none => exact hco
  | some v =>
    cases v with
    | str s =>
      rw [mergeOrigin_str]
      by_cases hs : s = ""
      · rw [if_pos hs]
        exact Or.inl rfl
      · rw [if_neg hs]
        by_cases hv : sanitizeOriginValue u (.str s) ≠ ""
        · rw [if_pos hv]
          exact goodOrigin_sanitize hu s
        · rw [if_neg hv]
          exact hco
    | null => exact Or.inl rfl
    | num n => exact hco
    | boolean b => exact hco
    | undef => exact hco

theorem mergeOrigin_self {u : String → Option String}
    {co : String} (hco : GoodOrigin u co) :
    mergeOrigin u co (some (.str co)) = co := by
  rw [mergeOrigin_str]
  by_cases hc : co = ""
  · rw [if_pos hc, hc]
  · rw [if_neg hc]
    have h := goodOrigin_stable hco hc
    have hcond : sanitizeOriginValue u (.str co) ≠ "" := by
      rw [h]; exact hc
    rw [if_pos hcond, h]

theorem resolvePair_fst_good {u : String → Option String} (hu : GoodURL u)
    {o : String} (ho : GoodOrigin u o) (x : JsVal) :
    GoodOrigin u (resolvePair o x).1 := by
  rw [resolvePair_eq]
  unfold forceOriginFor
  split_ifs
  · exact Or.inl rfl
  · exact goodOrigin_remote hu
  · exact ho

theorem setState_origin (u : String → Option String) (il : Bool)
    (cc : CacheContent) (patch : StatePatch) :
    (setState u il cc patch).origin
      = .str (resolvePair (mergeOrigin u (getState u il cc).origin patch.origin)
          (match patch.originPreset with
           | some v => v
           | none => .str (getState u il cc).originPreset)).1 := rfl

theorem setState_preset (u : String → Option String) (il : Bool)
    (cc : CacheContent) (patch : StatePatch) :
    (setState u il cc patch).originPreset
      = .str (resolvePair (mergeOrigin u (getState u il cc).origin patch.origin)
          (match patch.originPreset with
           | some v => v
           | none => .str (getState u il cc).originPreset)).2 := rfl

theorem getState_after_setState {u : String → Option String} (hu : GoodURL u)
    (il : Bool) (cc : CacheContent) (patch : StatePatch) :
    (getState u il (.stored (setState u il cc patch))).origin
        = (resolvePair (mergeOrigin u (getState u il cc).origin patch.origin)
            (match patch.originPreset with
             | some v => v
             | none => .str (getState u il cc).originPreset)).1
    ∧ (getState u il (.stored (setState u il cc patch))).originPreset
        = (resolvePair (mergeOrigin u (getState u il cc).origin patch.origin)
            (match patch.originPreset with
             | some v => v
             | none => .str (getState u il cc).originPreset)).2 := by
  have ho2 : GoodOrigin u (resolvePair
      (mergeOrigin u (getState u il cc).origin patch.origin)
      (match patch.originPreset with
       | some v => v
       | none => .str (getState u il cc).originPreset)).1 :=
    resolvePair_fst_good hu
      (mergeOrigin_good hu (getState_origin_good hu il cc) patch.origin) _
  have horig : (getState u il (.stored (setState u il cc patch))).origin
      = (resolvePair (mergeOrigin u (getState u il cc).origin patch.origin)
          (match patch.originPreset with
           | some v => v
           | none => .str (getState u il cc).originPreset)).1 := by
    rw [getState_stored_origin, setState_origin u il cc patch]
    rcases ho2 with h | h
    · rw [h]
      simp
    · by_cases hz : (resolvePair
          (mergeOrigin u (getState u il cc).origin patch.origin)
          (match patch.originPreset with
           | some v => v
           | none => .str (getState u il cc).originPreset)).1 = ""
      · simp [hz]
      · simp [hz, h]
  refine ⟨horig, ?_⟩
  rw [getState_stored_preset, setState_preset u il cc patch, horig]
  exact resolvePair_stable _ _

/-- The (origin, preset) pair stored by one processing of a set-data-origin
message against a cache content. -/
abbrev passPair (u : String → Option String) (il : Bool)
    (data : SetDataOriginMsg) (cc : CacheContent) : String × String :=
  resolvePair
    (mergeOrigin u (getState u il cc).origin
      (some (.str (match data.origin with
        | JsVal.str s => s
        | _ => (getState u il cc).origin))))
    (.str (match data.preset with
      | JsVal.str s => s
      | _ => (getState u il cc).originPreset))

theorem handleSetDataOrigin_eq (u : String → Option String) (il : Bool)
    (data : SetDataOriginMsg) (cc : CacheContent) :
    handleSetDataOrigin u il data cc
      = .stored (setState u il cc
          { zone := some (jsOfOpt (getState u il cc).zone)
            lastTimestamp := some (jsOfOpt (getState u il cc).lastTimestamp)
            origin := some (.str (match data.origin with
              | JsVal.str s => s
              | _ => (getState u il cc).origin))
            originPreset := some (.str (match data.preset with
              | JsVal.str s => s
              | _ => (getState u il cc).originPreset)) }) := rfl

theorem passPair_fst_good {u : String → Option String} (hu : GoodURL u)
    (il : Bool) (data : SetDataOriginMsg) (cc : CacheContent) :
    GoodOrigin u (passPair u il data cc).1 :=
  resolvePair_fst_good hu
    (mergeOrigin_good hu (getState_origin_good hu il cc) _) _

theorem passPair_idem {u : String → Option String} (hu : GoodURL u)
    (il : Bool) (data : SetDataOriginMsg) (cc cc2 : CacheContent)
    (h2o : (getState u il cc2).origin = (passPair u il data cc).1)
    (h2p : (getState u il cc2).originPreset = (passPair u il data cc).2) :
    passPair u il data cc2 = passPair u il data cc := by
  simp only [passPair] at h2o h2p ⊢
  rw [h2o, h2p]
  apply resolvePair_restart
  · cases hdo : data.origin with
    | str s =>
      by_cases hs : s = ""
      · left
        simp [mergeOrigin_str, hs]
      · by_cases hv : sanitizeOriginValue u (.str s) = ""
        · right
          simp [mergeOrigin_str, hs, hv]
        · left
          simp [mergeOrigin_str, hs, hv]
    | num n =>
      exact Or.inr (mergeOrigin_self (resolvePair_fst_good hu
        (mergeOrigin_good hu (getState_origin_good hu il cc) _) _))
    | boolean b =>
      exact Or.inr (mergeOrigin_self (resolvePair_fst_good hu
        (mergeOrigin_good hu (getState_origin_good hu il cc) _) _))
    | null =>
      exact Or.inr (mergeOrigin_self (resolvePair_fst_good hu
        (mergeOrigin_good hu (getState_origin_good hu il cc) _) _))
    | undef =>
      exact Or.inr (mergeOrigin_self (resolvePair_fst_good hu
        (mergeOrigin_good hu (getState_origin_good hu il cc) _) _))
  · cases hdp : data.preset with
    | str p => exact Or.inl rfl
    | num n => exact Or.inr rfl
    | boolean b => exact Or.inr rfl
    | null => exact Or.inr rfl
    | undef => exact Or.inr rfl

/-- C7 counterexample: requesting preset remote with an empty origin stores
origin empty and preset local, not the hard-coded production origin with
preset remote (and not custom either). -/
theorem c7_counterexample :
    handleSetDataOrigin noUrl false
        { origin := .str "", preset := .str "remote" } .empty
      = .stored ⟨.null, .null, .str "", .str "local"⟩
    ∧ JsVal.str "" ≠ JsVal.str REMOTE_DATA_ORIGIN
    ∧ JsVal.str "local" ≠ JsVal.str "remote" := by
  refine ⟨by decide, by decide, by decide⟩

/-- C7 (amended): processing the same set-data-origin message twice stores
the same (origin, originPreset) pair as processing it once, for any URL
parser with the standard properties; preset local always forces the stored
origin to the empty string with preset local, preset custom always stores
preset custom, and preset remote stores the production origin with preset
remote when the supplied origin is the production origin (with an empty
origin it degrades to local, with a different non-empty origin to custom,
as the counterexample shows). -/
theorem c7_origin_idempotent (u : String → Option String) (il : Bool)
    (hu : GoodURL u) (data : SetDataOriginMsg) (cc : CacheContent) :
    (∃ r1 r2 : RawStored,
      handleSetDataOrigin u il data cc = .stored r1
      ∧ handleSetDataOrigin u il data (.stored r1) = .stored r2
      ∧ r2.origin = r1.origin ∧ r2.originPreset = r1.originPreset)
    ∧ (data.preset = .str "local" →
        ∃ r1 : RawStored, handleSetDataOrigin u il data cc = .stored r1
          ∧ r1.origin = .str "" ∧ r1.originPreset = .str "local")
    ∧ (data.preset = .str "custom" →
        ∃ r1 : RawStored, handleSetDataOrigin u il data cc = .stored r1
          ∧ r1.originPreset = .str "custom")
    ∧ (data.origin = .str REMOTE_DATA_ORIGIN → data.preset = .str "remote" →
        ∃ r1 : RawStored, handleSetDataOrigin u il data cc = .stored r1
          ∧ r1.origin = .str REMOTE_DATA_ORIGIN
          ∧ r1.originPreset = .str "remote") := by
  refine ⟨?_, ?_, ?_, ?_⟩
  · refine ⟨_, _, handleSetDataOrigin_eq u il data cc,
      handleSetDataOrigin_eq u il data _, ?_, ?_⟩
    · have hrt := getState_after_setState hu il cc
        { zone := some (jsOfOpt (getState u il cc).zone)
          lastTimestamp := some (jsOfOpt (getState u il cc).lastTimestamp)
          origin := some (.str (match data.origin with
            | JsVal.str s => s
            | _ => (getState u il cc).origin))
          originPreset := some (.str (match data.preset with
            | JsVal.str s => s
            | _ => (getState u il cc).originPreset)) }
      have hpp := passPair_idem hu il data cc _ hrt.1 hrt.2
      show JsVal.str (passPair u il data (.stored (setState u il cc _))).1
        = JsVal.str (passPair u il data cc).1
      rw [hpp]
    · have hrt := getState_after_setState hu il cc
        { zone := some (jsOfOpt (getState u il cc).zone)
          lastTimestamp := some (jsOfOpt (getState u il cc).lastTimestamp)
          origin := some (.str (match data.origin with
            | JsVal.str s => s
            | _ => (getState u il cc).origin))
          originPreset := some (.str (match data.preset with
            | JsVal.str s => s
            | _ => (getState u il cc).originPreset)) }
      have hpp := passPair_idem hu il data cc _ hrt.1 hrt.2
      show JsVal.str (passPair u il data (.stored (setState u il cc _))).2
        = JsVal.str (passPair u il data cc).2
      rw [hpp]
  · intro hdp
    refine ⟨_, handleSetDataOrigin_eq u il data cc, ?_, ?_⟩
    · show JsVal.str (passPair u il data cc).1 = JsVal.str ""
      simp only [passPair]
      rw [hdp, resolvePair_eq]
      simp [resolvePresetForOrigin, forceOriginFor]
    · show JsVal.str (passPair u il data cc).2 = JsVal.str "local"
      simp only [passPair]
      rw [hdp, resolvePair_eq]
      simp [resolvePresetForOrigin]
  · intro hdp
    refine ⟨_, handleSetDataOrigin_eq u il data cc, ?_⟩
    show JsVal.str (passPair u il data cc).2 = JsVal.str "custom"
    simp only [passPair]
    rw [hdp, resolvePair_eq]
    simp [resolvePresetForOrigin]
  · intro hdo hdp
    have hm : mergeOrigin u (getState u il cc).origin
        (some (.str REMOTE_DATA_ORIGIN)) = REMOTE_DATA_ORIGIN := by
      rw [mergeOrigin_str, if_neg remote_ne_empty]
      have hs := sanitize_remote hu
      have hcond : sanitizeOriginValue u (.str REMOTE_DATA_ORIGIN) ≠ "" := by
        rw [hs]; exact remote_ne_empty
      rw [if_pos hcond, hs]
    refine ⟨_, handleSetDataOrigin_eq u il data cc, ?_, ?_⟩
    · show JsVal.str (passPair u il data cc).1 = JsVal.str REMOTE_DATA_ORIGIN
      simp only [passPair]
      rw [hdo, hdp]
      simp [hm, resolvePair_eq, resolvePresetForOrigin, forceOriginFor]
    · show JsVal.str (passPair u il data cc).2 = JsVal.str "remote"
      simp only [passPair]
      rw [hdo, hdp]
      simp [hm, resolvePair_eq, resolvePresetForOrigin, forceOriginFor]

/-- A URL-parser model satisfying GoodURL: it recognizes exactly the
production origin. -/
def goodU : String → Option String :=
  fun s => if s = REMOTE_DATA_ORIGIN then some REMOTE_DATA_ORIGIN else none

theorem goodU_spec : GoodURL goodU := by
  constructor
  · intro c o h
    unfold goodU at h
    split at h
    · cases h
      exact ⟨by decide, by decide, by decide, by simp [goodU]⟩
    · cases h
  · simp [goodU]

/-- C7 witness: the amended theorem applied to a concrete parser, message
and empty cache. -/
theorem c7_witness :
    GoodURL goodU
    ∧ (∃ r1 r2 : RawStored,
        handleSetDataOrigin goodU false
            { origin := .str "x", preset := .str "banana" } .empty = .stored r1
        ∧ handleSetDataOrigin goodU false
            { origin := .str "x", preset := .str "banana" } (.stored r1) = .stored r2
        ∧ r2.origin = r1.origin ∧ r2.originPreset = r1.originPreset) :=
  ⟨goodU_spec,
   (c7_origin_idempotent goodU false goodU_spec
     { origin := .str "x", preset := .str "banana" } .empty).1⟩

end Spot
